import Mathlib

/-!
Verification development for the soulaware adaptive coaching-reply engine
(src/lib/server/ai-v2.ts).  Text is modelled as a list of characters; the
JavaScript string operations used by the engine (trim, toLowerCase, regex
token scans, slice) are embedded as executable functions on character lists.
Floating point ratio comparisons in the source are modelled over the exact
rationals; the divergence is confined to astronomically large inputs.
-/

namespace Soulaware

/-- Text is modelled as a list of characters (UTF-16 code units of the
JavaScript strings; all inputs of interest are in the basic plane). -/
abbrev Str := List Char

/-- Coerce a Lean string literal into the character-list model. -/
def str (s : String) : Str := s.data

/-- The apostrophe character, used by some keyword patterns. -/
def apos : Char := '\''

/-- Characters matched by the JavaScript regex class for whitespace. -/
def jsWhitespace (c : Char) : Bool :=
  c = ' ' || c = '\t' || c = '\n' || c = '\r' ||
  c = '\x0b' || c = '\x0c' || c = ' ' || c = '﻿'

/-- Leading-whitespace removal, the first half of the JavaScript trim. -/
def jsTrimLeft (l : Str) : Str := l.dropWhile jsWhitespace

/-- Trailing-whitespace removal, the second half of the JavaScript trim. -/
def jsTrimRight (l : Str) : Str := (l.reverse.dropWhile jsWhitespace).reverse

/-- The JavaScript string trim: strip whitespace from both ends. -/
def jsTrim (l : Str) : Str := jsTrimRight (jsTrimLeft l)

/-- Per-character lower-casing, modelling toLowerCase on the inputs used. -/
def toLowerStr (l : Str) : Str := l.map Char.toLower

/-- Does the text start with the given pattern? -/
def leadsWith : Str → Str → Bool
  | _, [] => true
  | [], _ :: _ => false
  | h :: hs, p :: ps => h = p && leadsWith hs ps

/-- Does the pattern occur contiguously anywhere in the text? -/
def hasSub (hay pat : Str) : Bool :=
  if leadsWith hay pat then true
  else
    match hay with
    | [] => false
    | _ :: t => hasSub t pat

/-- Case-insensitive literal regex test: the fixed patterns of the source
are all lower-case literals tested with the ignore-case flag. -/
def testPat (pat : Str) (s : Str) : Bool := hasSub (toLowerStr s) pat

/-- Any of a list of case-insensitive literal alternatives matches. -/
def testAny (pats : List Str) (value : Str) : Bool :=
  pats.any fun p => hasSub value p

/-- Characters that may start a word token: the class of lower-case letters. -/
def isTokenStart (c : Char) : Bool := 'a' ≤ c && c ≤ 'z'

/-- Characters that may continue a word token: letters, apostrophe, hyphen. -/
def isTokenCont (c : Char) : Bool := isTokenStart c || c = apos || c = '-'

/-- Fueled greedy scan for maximal word tokens; the fuel only bounds the
recursion depth and never runs out when it starts at the text length. -/
def scanTokensF : Nat → Str → List Str
  | _, [] => []
  | 0, _ :: _ => []
  | fuel + 1, c :: rest =>
    if isTokenStart c then
      let body := rest.takeWhile isTokenCont
      if body.isEmpty then scanTokensF fuel rest
      else (c :: body) :: scanTokensF fuel (rest.drop body.length)
    else scanTokensF fuel rest

/-- Greedy left-to-right scan for maximal tokens of shape
letter followed by one or more letter, apostrophe or hyphen characters,
modelling the global word-token regex of toWordTokens. -/
def scanTokens (l : Str) : List Str := scanTokensF l.length l

/-- Tokenisation used throughout the engine (ai-v2.ts toWordTokens):
lower-case the text, scan word tokens, trim and drop empties. -/
def toWordTokens (text : Str) : List Str :=
  ((scanTokens (toLowerStr text)).map jsTrim).filter (fun w => !w.isEmpty)

/-- Normalisation for duplicate comparison (ai-v2.ts normalizeForCompare,
first step): every character outside lower-case letters, digits and
whitespace is replaced by a space. -/
def keepAlnumWs (c : Char) : Char :=
  if ('a' ≤ c && c ≤ 'z') || ('0' ≤ c && c ≤ '9') || jsWhitespace c then c
  else ' '

/-- Fueled whitespace-run collapse; the fuel never runs out when it starts
at the text length. -/
def collapseWsF : Nat → Str → Str
  | _, [] => []
  | 0, l => l
  | fuel + 1, c :: rest =>
    if jsWhitespace c then ' ' :: collapseWsF fuel (rest.dropWhile jsWhitespace)
    else c :: collapseWsF fuel rest

/-- Collapse every run of whitespace into a single space. -/
def collapseWs (l : Str) : Str := collapseWsF l.length l

/-- Normalisation used by the quality gate (ai-v2.ts normalizeForCompare):
lower-case, strip punctuation to spaces, collapse whitespace, trim. -/
def normalizeForCompare (text : Str) : Str :=
  jsTrim (collapseWs ((toLowerStr text).map keepAlnumWs))

/-- Truncate to a maximal length, appending a three-character ellipsis when
the text was longer (ai-v2.ts clip). -/
def clip (text : Str) (max : Nat) : Str :=
  if max < text.length then text.take max ++ str "..." else text

/-- Reduce an integer into the signed 32-bit range, modelling the
JavaScript bitwise coercion. -/
def wrap32 (n : Int) : Int :=
  let m := n % 4294967296
  if 2147483648 ≤ m then m - 4294967296 else m

/-- One step of the multiplicative string hash of seededIndex:
shift left five bits, subtract, add the character code, coerce to 32 bits. -/
def seededStep (h : Int) (c : Char) : Int :=
  wrap32 (wrap32 (h * 32) - h + c.toNat)

/-- The full string hash of seededIndex. -/
def seededHash (seed : Str) : Int := seed.foldl seededStep 0

/-- Deterministic index selection (ai-v2.ts seededIndex): absolute value of
the 32-bit string hash, reduced modulo the option count. -/
def seededIndex (seed : Str) (size : Nat) : Nat :=
  (seededHash seed).natAbs % size

/-- Insert a word into an insertion-ordered duplicate-free list, modelling
addition to a JavaScript Set. -/
def insertUnique (acc : List Str) (w : Str) : List Str :=
  if w ∈ acc then acc else acc ++ [w]

/-- The set of words of a list in first-occurrence order. -/
def mkSet (l : List Str) : List Str := l.foldl insertUnique []

/-- Fueled split on single literal spaces; the fuel never runs out when it
starts at the text length. -/
def splitOnSpaceF : Nat → Str → List Str
  | 0, l => [l]
  | fuel + 1, l =>
    let seg := l.takeWhile (fun c => c ≠ ' ')
    match l.dropWhile (fun c => c ≠ ' ') with
    | [] => [seg]
    | _ :: tail => seg :: splitOnSpaceF fuel tail

/-- Split on single literal spaces, keeping empty segments, modelling the
JavaScript split on a space. -/
def splitOnSpace (l : Str) : List Str := splitOnSpaceF l.length l

/-- The last n entries of a list, modelling a negative JavaScript slice. -/
def lastN (n : Nat) (l : List α) : List α := l.drop (l.length - n)

/-- The fixed stopword set of the engine (ai-v2.ts STOPWORDS). -/
def STOPWORDS : List Str :=
  [str "a", str "an", str "and", str "are", str "at", str "be", str "been",
   str "by", str "for", str "from", str "have", str "i", str "im", str "in",
   str "is", str "it", str "me", str "my", str "of", str "on", str "or",
   str "that", str "the", str "this", str "to", str "we", str "with",
   str "you", str "your"]

/-- The fixed action-verb set of the low-information detector
(ai-v2.ts ACTION_VERBS). -/
def ACTION_VERBS : List Str :=
  [str "build", str "change", str "choose", str "create", str "decide",
   str "define", str "improve", str "launch", str "learn", str "plan",
   str "start", str "stop", str "ship", str "write", str "schedule",
   str "test", str "practice", str "apply", str "move", str "focus"]

/-- The fixed banned generic reply patterns of the quality gate
(ai-v2.ts GENERIC_PATTERNS), all case-insensitive literals. -/
def GENERIC_PATTERNS : List Str :=
  [str "what would progress look like", str "trusted yourself",
   str "meaningful step", str "clarity is already starting"]

/-- The banned question patterns of normalizeQuestion
(ai-v2.ts BANNED_QUESTION_PATTERNS). -/
def BANNED_QUESTION_PATTERNS : List Str :=
  [str "what would progress look like", str "if you trusted yourself"]

/-- Dominant conversational intents recognised by the profiler. -/
inductive DominantIntent where
  | decision | career | purpose | emotion | habit | general
deriving DecidableEq

/-- Emotional tones recognised by the profiler. -/
inductive EmotionalTone where
  | uncertain | stressed | motivated | neutral
deriving DecidableEq

/-- Session stages of the step classifier. -/
inductive SessionStage where
  | opening | exploring | planning | accountability
deriving DecidableEq

/-- The closed coaching-lens enumeration (types/domain CoachingLens). -/
inductive CoachingLens where
  | clarify | blocker | values | experiment | decision | accountability
deriving DecidableEq

/-- String rendering of an intent, for seed interpolation. -/
def intentStr : DominantIntent → Str
  | .decision => str "decision"
  | .career => str "career"
  | .purpose => str "purpose"
  | .emotion => str "emotion"
  | .habit => str "habit"
  | .general => str "general"

/-- String rendering of a tone, for template interpolation. -/
def toneStr : EmotionalTone → Str
  | .uncertain => str "uncertain"
  | .stressed => str "stressed"
  | .motivated => str "motivated"
  | .neutral => str "neutral"

/-- String rendering of a stage, for seed interpolation. -/
def stageStr : SessionStage → Str
  | .opening => str "opening"
  | .exploring => str "exploring"
  | .planning => str "planning"
  | .accountability => str "accountability"

/-- String rendering of a lens, for seed interpolation. -/
def lensStr : CoachingLens → Str
  | .clarify => str "clarify"
  | .blocker => str "blocker"
  | .values => str "values"
  | .experiment => str "experiment"
  | .decision => str "decision"
  | .accountability => str "accountability"

/-- String rendering of the persisted last lens; the empty string denotes
the absent value of the stored record. -/
def lastLensStr : Option CoachingLens → Str
  | none => []
  | some l => lensStr l

/-- The ordered candidate lens list per intent (ai-v2.ts LENS_BY_INTENT). -/
def LENS_BY_INTENT : DominantIntent → List CoachingLens
  | .decision => [.decision, .values, .experiment, .accountability]
  | .career => [.decision, .blocker, .experiment, .accountability]
  | .purpose => [.values, .clarify, .experiment, .decision]
  | .emotion => [.clarify, .blocker, .values, .accountability]
  | .habit => [.accountability, .experiment, .blocker, .decision]
  | .general => [.clarify, .experiment, .values, .decision]

/-- The fixed reflection lead-in phrases (ai-v2.ts REFLECTION_OPENERS). -/
def REFLECTION_OPENERS : List Str :=
  [str "What stands out from what you shared is",
   str "The core signal in your message is",
   str "A useful read on your situation is",
   str "The pattern I notice here is"]

/-- The fixed action-step lead-in phrases (ai-v2.ts STEP_OPENERS). -/
def STEP_OPENERS : List Str :=
  [str "A concrete next move is",
   str "One practical step for today is",
   str "To build momentum, do this next",
   str "A high-leverage action now is"]

/-- The fixed question lead-in phrases (ai-v2.ts QUESTION_OPENERS). -/
def QUESTION_OPENERS : List Str :=
  [str "Question to pressure-test this:",
   str "Reflect on this next:",
   str "One follow-up to sharpen direction:",
   str "Check-in question:"]

/-- The word set a text contributes to the overlap score: normalised,
split on spaces, restricted to words of at least four characters,
de-duplicated. -/
def overlapWordSet (a : Str) : List Str :=
  mkSet ((splitOnSpace (normalizeForCompare a)).filter (fun w => 4 ≤ w.length))

/-- Lexical overlap score between two texts (ai-v2.ts lexicalOverlapScore):
word sets of the normalised texts restricted to words of at least four
characters; the number of shared words divided by the smaller set size.
The source computes the quotient in binary floating point; it is modelled
exactly over the rationals. -/
def lexicalOverlapScore (a b : Str) : ℚ :=
  let wordsA := overlapWordSet a
  let wordsB := overlapWordSet b
  if wordsA.length = 0 ∨ wordsB.length = 0 then 0
  else
    let overlap := (wordsA.filter (fun w => w ∈ wordsB)).length
    (overlap : ℚ) / ((min wordsA.length wordsB.length : ℕ) : ℚ)

/-- The seventy-percent overlap test of the quality gate, written as the
equivalent exact cross-multiplied comparison so that it evaluates by
kernel reduction; the bridge to the rational score is proved below. -/
def overlapAtLeastSeventy (a b : Str) : Bool :=
  let wordsA := overlapWordSet a
  let wordsB := overlapWordSet b
  if wordsA.length = 0 ∨ wordsB.length = 0 then false
  else
    7 * min wordsA.length wordsB.length ≤
      10 * (wordsA.filter (fun w => w ∈ wordsB)).length

/-- Intent classification (ai-v2.ts detectIntent): fixed priority order of
case-insensitive keyword alternatives over the lower-cased text. -/
def detectIntent (text : Str) : DominantIntent :=
  let value := toLowerStr text
  if testAny [str "decision", str "choose", str "choice", str "option",
      str "tradeoff", str "stuck between"] value then .decision
  else if testAny [str "career", str "job", str "work", str "resume",
      str "interview", str "promotion", str "startup"] value then .career
  else if testAny [str "purpose", str "meaning", str "mission",
      str "calling", str "direction"] value then .purpose
  else if testAny [str "habit", str "routine", str "discipline",
      str "consistency", str "procrastin", str "focus"] value then .habit
  else if testAny [str "anxious", str "stress", str "overwhelm", str "fear",
      str "sad", str "lost", str "burnout", str "tired"] value then .emotion
  else .general

/-- Tone classification (ai-v2.ts detectTone). -/
def detectTone (text : Str) : EmotionalTone :=
  let value := toLowerStr text
  if testAny [str "panic", str "anxious", str "overwhelm", str "burnout",
      str "can" ++ [apos] ++ str "t cope", str "stressed",
      str "drained"] value then .stressed
  else if testAny [str "lost", str "uncertain", str "confused",
      str "not sure", str "stuck"] value then .uncertain
  else if testAny [str "ready", str "committed", str "motivated",
      str "excited", str "let" ++ [apos] ++ str "s do"] value then .motivated
  else .neutral

/-- Stage classification (ai-v2.ts detectStage): a step function of the
user-turn count. -/
def detectStage (userTurns : Nat) : SessionStage :=
  if userTurns ≤ 2 then .opening
  else if userTurns ≤ 6 then .exploring
  else if userTurns ≤ 12 then .planning
  else .accountability

/-- Stable descending insertion by count: the new element passes every
entry of count at least its own and lands strictly before the first
smaller count, so equal counts keep their relative order. -/
def insertDesc (x : Str × Nat) : List (Str × Nat) → List (Str × Nat)
  | [] => [x]
  | y :: ys => if y.2 < x.2 then x :: y :: ys else y :: insertDesc x ys

/-- Stable insertion sort on descending counts, modelling the stable
JavaScript Array sort with comparator b minus a on counts: elements are
taken in first-occurrence order and each is inserted after all entries of
equal count already placed. -/
def sortByCountDesc (l : List (Str × Nat)) : List (Str × Nat) :=
  l.foldl (fun acc x => insertDesc x acc) []

/-- Keyword extraction (ai-v2.ts extractKeywords): frequency count of the
non-stopword tokens in first-occurrence order, stably sorted by descending
frequency, first eight words. -/
def extractKeywords (text : Str) : List Str :=
  let filtered := (toWordTokens text).filter (fun t => t ∉ STOPWORDS)
  let pairs := (mkSet filtered).map (fun w => (w, filtered.count w))
  ((sortByCountDesc pairs).take 8).map Prod.fst

/-- The low-information detector (ai-v2.ts isLowInformationInput).  The
stopword-share comparison against 0.68 is written as the equivalent exact
cross-multiplied comparison; the bridge to the rational share is proved
below. -/
def isLowInformationInput (text : Str) : Bool :=
  let tokens := toWordTokens text
  if tokens.length ≤ 3 then true
  else
    let stopwordCount := (tokens.filter (fun t => t ∈ STOPWORDS)).length
    let actionVerbPresent := tokens.any (fun t => t ∈ ACTION_VERBS)
    if tokens.length ≤ 8 &&
        decide (68 * max tokens.length 1 ≤ 100 * stopwordCount) then true
    else if tokens.length ≤ 6 && !actionVerbPresent then true
    else false

/-- Message roles of the chat history. -/
inductive ChatRole where
  | user | assistant
deriving DecidableEq

/-- Prompt modes attached to stored turns. -/
inductive PromptMode where
  | coach | safety
deriving DecidableEq

/-- A stored chat turn (types/domain ChatHistoryMessage). -/
structure ChatHistoryMessage where
  id : Str
  role : ChatRole
  content : Str
  createdAt : Str
  mode : PromptMode
deriving DecidableEq

/-- The persisted session state (repository mapSessionState shape); the
empty stored lens string is modelled as the absent option. -/
structure ChatSessionState where
  sessionId : Str
  rollingSummary : Str
  userFacts : List Str
  openLoops : List Str
  pendingClarifier : Bool
  clarifierTopic : Str
  lastLens : Option CoachingLens
  lastModel : Str
  updatedAt : Str
deriving DecidableEq

/-- A stored purpose snapshot (types/domain StoredPurposeSnapshot). -/
structure StoredPurposeSnapshot where
  id : Str
  sessionId : Str
  mission : Str
  values : List Str
  nextActions : List Str
  createdAt : Str
deriving DecidableEq

/-- The derived per-turn session profile (ai-v2.ts SessionProfile). -/
structure SessionProfile where
  dominantIntent : DominantIntent
  tone : EmotionalTone
  stage : SessionStage
  keywords : List Str
  userMessages : List Str
  assistantMessages : List Str
  totalChars : Nat
deriving DecidableEq

/-- The three-field coaching draft (ai-v2.ts CoachDraft). -/
structure CoachDraft where
  reflection : Str
  actionStep : Str
  followUpQuestion : Str
deriving DecidableEq

/-- Token usage metrics of one model call (ai-v2.ts UsageMetrics). -/
structure UsageMetrics where
  promptTokens : Nat
  completionTokens : Nat
  totalTokens : Nat
deriving DecidableEq

/-- Join a list of texts with the given separator, modelling the
JavaScript array join. -/
def joinSep (sep : Str) (parts : List Str) : Str := List.intercalate sep parts

/-- The session profiler (ai-v2.ts buildSessionProfile): last eight user
turns, last four assistant coaching turns, classifiers over the
concatenated user text plus current input. -/
def buildSessionProfile (history : List ChatHistoryMessage) (text : Str) :
    SessionProfile :=
  let userMessages :=
    (lastN 8 (history.filter (fun m => m.role = .user))).map (fun m => m.content)
  let assistantMessages :=
    (lastN 4 (history.filter
      (fun m => m.role = .assistant && m.mode = .coach))).map
      (fun m => m.content)
  let combined := joinSep (str " ") (userMessages ++ [text])
  let totalChars := combined.length + (joinSep (str " ") assistantMessages).length
  { dominantIntent := detectIntent combined
    tone := detectTone combined
    stage := detectStage userMessages.length
    keywords := extractKeywords combined
    userMessages := userMessages
    assistantMessages := assistantMessages
    totalChars := totalChars }

/-- The lens selector (ai-v2.ts chooseLens): seeded pick from the candidate
list of the dominant intent, replaced by the first different candidate when
it repeats a previous lens other than clarify. -/
def chooseLens (profile : SessionProfile) (previousLens : Option CoachingLens)
    (seed : Str) : CoachingLens :=
  let options := LENS_BY_INTENT profile.dominantIntent
  if options.length = 0 then .clarify
  else
    let selected := options.getD (seededIndex seed options.length) .clarify
    if some selected = previousLens ∧ selected ≠ .clarify then
      match options.find? (fun lens => some lens ≠ previousLens) with
      | some alternative => alternative
      | none => selected
    else selected

/-- The model-router complexity score (ai-v2.ts complexityScore). -/
def complexityScore (profile : SessionProfile) (text : Str) : Nat :=
  let tokens := toWordTokens text
  let score := 0
  let score := score + (if 35 ≤ tokens.length then 2 else 0)
  let score := score +
    (if profile.stage = .planning ∨ profile.stage = .accountability then 1 else 0)
  let score := score +
    (if profile.dominantIntent = .decision ∨ profile.dominantIntent = .purpose
     then 2 else 0)
  let score := score +
    (if profile.tone = .stressed ∨ profile.tone = .uncertain then 1 else 0)
  let score := score +
    (if testAny [str "between", str "tradeoff", str "multiple", str "options",
        str "conflict"] (toLowerStr text) then 2 else 0)
  let score := score + (if 3200 ≤ profile.totalChars then 1 else 0)
  score

/-- Topic selection for the clarifier (ai-v2.ts pickTopic): the first
keyword when truthy, else the first token, else a fixed default. -/
def pickTopic (text : Str) (profile : SessionProfile) : Str :=
  let keyword := profile.keywords.headD []
  if keyword ≠ [] then keyword
  else
    match toWordTokens text with
    | t :: _ => t
    | [] => str "this"

/-- The clarifying question templates (ai-v2.ts buildClarifierQuestion). -/
def buildClarifierQuestion (topic : Str) (intent : DominantIntent) : Str :=
  match intent with
  | .decision =>
      str "When you say \"" ++ topic ++
      str "\", what exact decision are you trying to make right now?"
  | .career =>
      str "For \"" ++ topic ++
      str "\", what outcome are you aiming for in your career over the next 30 days?"
  | .purpose =>
      str "For \"" ++ topic ++
      str "\", what feels most meaningful to you right now, and why?"
  | .emotion =>
      str "When \"" ++ topic ++
      str "\" shows up, what is happening in the moment and what feels hardest?"
  | .habit =>
      str "For \"" ++ topic ++
      str "\", what specific habit are you trying to start, stop, or stabilize?"
  | .general =>
      str "When you say \"" ++ topic ++
      str "\", what exactly do you want to change first?"

/-- Split on line endings, modelling the JavaScript split on the
optional-carriage-return newline regex. -/
def splitLines : Str → List Str
  | [] => [[]]
  | '\r' :: '\n' :: rest => [] :: splitLines rest
  | '\n' :: rest => [] :: splitLines rest
  | c :: rest =>
    match splitLines rest with
    | [] => [[c]]
    | s :: ss => (c :: s) :: ss

/-- Strip a single leading dash or asterisk bullet with its trailing
whitespace, modelling the bullet-stripping regex replacement. -/
def stripBullet (l : Str) : Str :=
  match l with
  | c :: rest => if c = '-' ∨ c = '*' then rest.dropWhile jsWhitespace else l
  | [] => []

/-- The first six nonempty cleaned lines across the given messages,
modelling the capped nested collection loop of buildAvoidPhraseBlock. -/
def collectFragments (messages : List Str) : List Str :=
  ((((messages.map splitLines).flatten).map
      (fun line => stripBullet (jsTrim line))).filter
    (fun c => !c.isEmpty)).map (fun c => clip c 90) |>.take 6

/-- Decimal rendering of a number for list numbering. -/
def natToStr (n : Nat) : Str := (Nat.repr n).data

/-- The anti-repetition phrase block (ai-v2.ts buildAvoidPhraseBlock):
numbered unique quoted fragments joined by newlines. -/
def buildAvoidPhraseBlock (messages : List Str) : Str :=
  let fragments := collectFragments messages
  if fragments.isEmpty then []
  else
    joinSep (str "\n")
      ((mkSet fragments).enum.map
        (fun p => natToStr (p.1 + 1) ++ str ". \"" ++ p.2 ++ str "\""))

/-- Token estimation fallback (ai-v2.ts estimateTokens): the ceiling of a
quarter of the character count, at least one. -/
def estimateTokens (text : Str) : Nat := max 1 ((text.length + 3) / 4)

/-- The usage record a completed provider call may carry. -/
structure CompletionUsage where
  prompt_tokens : Option Nat
  completion_tokens : Option Nat
  total_tokens : Option Nat
deriving DecidableEq

/-- Usage normalisation (ai-v2.ts safeUsageFromCompletion): provider usage
when present, otherwise length-based estimates of both sides. -/
def safeUsageFromCompletion (usage : Option CompletionUsage)
    (fallbackInput fallbackOutput : Str) : UsageMetrics :=
  match usage with
  | some u =>
      { promptTokens := u.prompt_tokens.getD 0
        completionTokens := u.completion_tokens.getD 0
        totalTokens := u.total_tokens.getD
          (u.prompt_tokens.getD 0 + u.completion_tokens.getD 0) }
  | none =>
      let promptTokens := estimateTokens fallbackInput
      let completionTokens := estimateTokens fallbackOutput
      { promptTokens := promptTokens
        completionTokens := completionTokens
        totalTokens := promptTokens + completionTokens }

/-- Round a rational to six decimal places, half away from zero, modelling
the decimal rounding of the cost figure.  The source computes the cost in
binary floating point; the divergence is bounded by one unit in the last
place and touches telemetry only. -/
def roundSixPlaces (q : ℚ) : ℚ :=
  (Int.floor (q * 1000000 + 1 / 2) : ℚ) / 1000000

/-- Cost estimation (ai-v2.ts estimateCostUsd), exact over the rationals. -/
def estimateCostUsd (model : Str) (usage : UsageMetrics) : ℚ :=
  let pricing : ℚ × ℚ :=
    if hasSub model (str "mini") then (8 / 10000, 32 / 10000)
    else (5 / 1000, 15 / 1000)
  roundSixPlaces
    ((usage.promptTokens : ℚ) / 1000 * pricing.1 +
     (usage.completionTokens : ℚ) / 1000 * pricing.2)

/-- A JSON value as far as the engine inspects the parsed model output:
only the string and array shapes are distinguished. -/
inductive JVal where
  | jstr (s : Str)
  | jarr (elems : List JVal)
  | jother

/-- A parsed JSON object: ordered key-value pairs. -/
abbrev JsonObj := List (Str × JVal)

/-- First value stored under the given key. -/
def getField (obj : JsonObj) (key : Str) : Option JVal :=
  (obj.find? (fun p => p.1 = key)).map (fun p => p.2)

/-- Trimmed string content of an optional field when it is a string,
otherwise empty — the typeof-string-then-trim idiom of the parser. -/
def fieldStr (v : Option JVal) : Str :=
  match v with
  | some (.jstr s) => jsTrim s
  | _ => []

/-- Remove a fixed case-insensitive label prefix with trailing whitespace,
the exact-label replacement regexes of the line parser. -/
def stripLabelExact (label : Str) (l : Str) : Str :=
  if leadsWith (toLowerStr l) label then (l.drop label.length).dropWhile jsWhitespace
  else l

/-- Remove a case-insensitive label prefix up to and including the first
colon plus trailing whitespace, modelling the label replacement regexes
that allow characters between the label and the colon.  When no colon
occurs the line is returned unchanged, as the regex then fails to match. -/
def stripLabelColon (label : Str) (l : Str) : Str :=
  if leadsWith (toLowerStr l) label then
    match l.dropWhile (fun c => c ≠ ':') with
    | [] => l
    | _ :: after => after.dropWhile jsWhitespace
  else l

/-- Draft parsing (ai-v2.ts parseCoachDraft).  The JSON decode of the raw
model output (extractJson, a provider-output concern) is supplied as the
already-parsed object; the structured field extraction with its alias
fallbacks and the tolerant line-labelled fallback parse are embedded. -/
def parseCoachDraft (parsed : Option JsonObj) (raw : Str) : Option CoachDraft :=
  let structured : Option CoachDraft :=
    match parsed with
    | some obj =>
      let reflection := fieldStr (getField obj (str "reflection"))
      let actionStep :=
        match getField obj (str "actionStep") with
        | some (.jstr s) => jsTrim s
        | _ => fieldStr (getField obj (str "nextStep"))
      let followUpQuestion :=
        match getField obj (str "followUpQuestion") with
        | some (.jstr s) => jsTrim s
        | _ => fieldStr (getField obj (str "question"))
      if !reflection.isEmpty && !actionStep.isEmpty && !followUpQuestion.isEmpty
      then some { reflection, actionStep, followUpQuestion }
      else none
    | none => none
  match structured with
  | some draft => some draft
  | none =>
    let lines := ((splitLines raw).map jsTrim).filter (fun l => !l.isEmpty)
    let reflectionLine := lines.find? (fun l => leadsWith (toLowerStr l) (str "reflection:"))
    let actionLine := lines.find? (fun l => leadsWith (toLowerStr l) (str "action"))
    let questionLine := lines.find? (fun l =>
      leadsWith (toLowerStr l) (str "question:") || testPat (str "question") l)
    match reflectionLine, actionLine, questionLine with
    | some rl, some al, some ql =>
      let reflection := jsTrim (stripLabelExact (str "reflection:") rl)
      let actionStep := jsTrim (stripLabelColon (str "action") al)
      let followUpQuestion := jsTrim (stripLabelColon (str "question") ql)
      if !reflection.isEmpty && !actionStep.isEmpty && !followUpQuestion.isEmpty
      then some { reflection, actionStep, followUpQuestion }
      else none
    | _, _, _ => none

/-- Does the text end with a question mark? -/
def endsWithQ (l : Str) : Bool :=
  match l.getLast? with
  | some c => c = '?'
  | none => false

/-- Strip trailing full stops, the trailing-dots replacement regex. -/
def stripTrailingDots (l : Str) : Str :=
  (l.reverse.dropWhile (fun c => c = '.')).reverse

/-- The replacement question templates of normalizeQuestion, two per
intent, interpolating the keyword. -/
def questionReplacements (intent : DominantIntent) (keyword : Str) : List Str :=
  match intent with
  | .decision =>
      [str "Which criterion matters most for your decision on " ++ keyword ++ str "?",
       str "What tradeoff on " ++ keyword ++ str " are you willing to accept today?"]
  | .career =>
      [str "What capability tied to " ++ keyword ++
         str " would move your career forward fastest this month?",
       str "What career outcome around " ++ keyword ++
         str " would feel like a win in 30 days?"]
  | .purpose =>
      [str "How does " ++ keyword ++
         str " connect to the life you actually want to build?",
       str "Where is " ++ keyword ++ str " most aligned with your deeper values?"]
  | .emotion =>
      [str "What support or boundary around " ++ keyword ++
         str " would lower pressure this week?",
       str "When " ++ keyword ++
         str " feels intense, what helps you regain steadiness fastest?"]
  | .habit =>
      [str "What is the smallest repeatable action around " ++ keyword ++
         str " you can commit to daily?",
       str "What trigger can you pair with " ++ keyword ++
         str " to make follow-through easier?"]
  | .general =>
      [str "What would be undeniable progress on " ++ keyword ++
         str " by this time next week?",
       str "Which first move on " ++ keyword ++
         str " can you complete in under 30 minutes?"]

/-- Question normalisation (ai-v2.ts normalizeQuestion): trim, force a
trailing question mark, and replace too-short or banned questions with a
seeded intent-specific template. -/
def normalizeQuestion (question : Str) (profile : SessionProfile)
    (keyword : Str) : Str :=
  let normalized := jsTrim question
  let normalized :=
    if !endsWithQ normalized then stripTrailingDots normalized ++ [ '?' ]
    else normalized
  if normalized.length < 20 ∨
      BANNED_QUESTION_PATTERNS.any (fun p => testPat p normalized) then
    let options := questionReplacements profile.dominantIntent keyword
    options.getD (seededIndex (keyword ++ [ ':' ] ++ stageStr profile.stage)
      options.length) normalized
  else normalized

/-- Reply rendering (ai-v2.ts formatAdaptiveReply): seeded lead-in phrases
for the three sections, joined by blank lines. -/
def formatAdaptiveReply (draft : CoachDraft) (seed : Str) : Str :=
  let reflectionOpener := REFLECTION_OPENERS.getD
    (seededIndex (seed ++ str ":r") REFLECTION_OPENERS.length) []
  let stepOpener := STEP_OPENERS.getD
    (seededIndex (seed ++ str ":s") STEP_OPENERS.length) []
  let questionOpener := QUESTION_OPENERS.getD
    (seededIndex (seed ++ str ":q") QUESTION_OPENERS.length) []
  (reflectionOpener ++ [ ' ' ] ++ draft.reflection) ++ str "\n\n" ++
  (stepOpener ++ str ": " ++ draft.actionStep) ++ str "\n\n" ++
  (questionOpener ++ [ ' ' ] ++ draft.followUpQuestion)

/-- The similarity and quality gate (ai-v2.ts isLowQualityReply): banned
generic patterns, then exact normalised duplication or at least seventy
percent lexical overlap against the last three assistant turns, skipping
turns whose normalised form is empty. -/
def isLowQualityReply (candidate : Str) (assistantMessages : List Str) : Bool :=
  if GENERIC_PATTERNS.any (fun p => testPat p candidate) then true
  else
    let normalizedCandidate := normalizeForCompare candidate
    (lastN 3 assistantMessages).any (fun previous =>
      let normalizedPrevious := normalizeForCompare previous
      if normalizedPrevious.isEmpty then false
      else if normalizedPrevious = normalizedCandidate then true
      else overlapAtLeastSeventy candidate previous)

/-- The per-lens action templates of the deterministic fallback. -/
def fallbackActionByLens (lens : CoachingLens) (keyword : Str) : Str :=
  match lens with
  | .clarify =>
      str "Write one sentence defining what success on " ++ keyword ++
      str " means by next week, then remove one distraction that does not support it."
  | .blocker =>
      str "Identify the single largest blocker on " ++ keyword ++
      str " and shrink it into a 20-minute task you can complete today."
  | .values =>
      str "List your top three values and pick the option on " ++ keyword ++
      str " that best matches them, even if it is less comfortable."
  | .experiment =>
      str "Run a 48-hour experiment on " ++ keyword ++
      str " with one measurable metric so you can learn quickly."
  | .decision =>
      str "Define three criteria for this " ++ keyword ++
      str " decision, score each option, and commit to one next move."
  | .accountability =>
      str "Set a 7-day commitment for " ++ keyword ++
      str ", include one measurable milestone, and schedule a check-in."

/-- The deterministic fallback draft (ai-v2.ts deterministicFallbackReply):
a seeded reflection opener, a per-lens action template and a normalised
default question, each interpolating the first keyword. -/
def deterministicFallbackReply (profile : SessionProfile)
    (lens : CoachingLens) (text : Str) : CoachDraft :=
  let keyword :=
    match profile.keywords with
    | [] => pickTopic text profile
    | k :: _ => k
  let reflection :=
    REFLECTION_OPENERS.getD (seededIndex text REFLECTION_OPENERS.length) [] ++
    str " your focus on " ++ keyword ++ str " is the right anchor for this turn."
  { reflection := reflection
    actionStep := fallbackActionByLens lens keyword
    followUpQuestion := normalizeQuestion
      (str "What is the first concrete move on " ++ keyword ++
       str " you can complete in the next 24 hours?") profile keyword }

/-- Default of the fast chat model tier (lib/server/env.ts). -/
def envOpenAiChatModelFast : Str := str "gpt-4.1-mini"

/-- Default of the primary chat model tier (lib/server/env.ts). -/
def envOpenAiChatModelPrimary : Str := str "gpt-4.1"

/-- Default of the summarisation model tier (lib/server/env.ts). -/
def envOpenAiSummaryModel : Str := str "gpt-4.1-mini"

/-- The empty usage accumulator. -/
def zeroUsage : UsageMetrics :=
  { promptTokens := 0, completionTokens := 0, totalTokens := 0 }

/-- Component-wise usage accumulation (the addUsage closure). -/
def addUsage (a b : UsageMetrics) : UsageMetrics :=
  { promptTokens := a.promptTokens + b.promptTokens
    completionTokens := a.completionTokens + b.completionTokens
    totalTokens := a.totalTokens + b.totalTokens }

/-- A text, or the fixed word none when it is empty — the or-default idiom
of the prompt assembly. -/
def orNone (s : Str) : Str := if s.isEmpty then str "none" else s

/-- A text, or the given default when it is empty. -/
def orDefault (s d : Str) : Str := if s.isEmpty then d else s

/-- The observable outcome of one completed draft model call: the raw
content, the provider usage record, and the JSON decode of the content.
The JSON decode (extractJson) wraps the remote output and is supplied by
the provider model rather than re-embedded. -/
structure DraftModelOutcome where
  content : Option Str
  usage : Option CompletionUsage
  parsed : Option JsonObj

/-- The parameters of one draft-generation call (ai-v2.ts
generateDraftWithModel), without the process-global client. -/
structure DraftGenParams where
  model : Str
  profile : SessionProfile
  lens : CoachingLens
  latestSnapshot : Option StoredPurposeSnapshot
  rollingSummary : Str
  userFacts : List Str
  openLoops : List Str
  inputText : Str
  avoidPhrases : Str
  forceVariation : Bool
  previousCandidate : Option Str

/-- The composed context prompt of a draft-generation call (the
contextLines assembly of generateDraftWithModel). -/
def draftUserMessage (p : DraftGenParams) : Str :=
  let base :=
    [str "Intent: " ++ intentStr p.profile.dominantIntent,
     str "Tone: " ++ toneStr p.profile.tone,
     str "Stage: " ++ stageStr p.profile.stage,
     str "Lens: " ++ lensStr p.lens,
     str "Rolling summary: " ++ orNone p.rollingSummary,
     str "User facts: " ++ orNone (joinSep (str " | ") p.userFacts),
     str "Open loops: " ++ orNone (joinSep (str " | ") p.openLoops),
     str "Keywords: " ++ orNone (joinSep (str ", ") p.profile.keywords),
     str "Recent user turns:"] ++
    p.profile.userMessages.enum.map
      (fun q => str "U" ++ natToStr (q.1 + 1) ++ str ": " ++ clip q.2 220) ++
    [str "Recent assistant turns:"] ++
    (lastN 4 p.profile.assistantMessages).enum.map
      (fun q => str "A" ++ natToStr (q.1 + 1) ++ str ": " ++ clip q.2 220) ++
    [str "Latest purpose snapshot:",
     (match p.latestSnapshot with
      | some s =>
          str "Mission=" ++ s.mission ++ str "; Values=" ++
          joinSep (str ", ") s.values ++ str "; NextActions=" ++
          joinSep (str " | ") s.nextActions
      | none => str "none"),
     str "Current user message: " ++ p.inputText]
  let withAvoid :=
    if !p.avoidPhrases.isEmpty then
      base ++ [str "Avoid reusing these phrases:", p.avoidPhrases]
    else base
  let withVariation :=
    match p.forceVariation, p.previousCandidate with
    | true, some previous =>
        withAvoid ++ [str "Previous repetitive draft to avoid:", previous]
    | _, _ => withAvoid
  joinSep (str "\n") withVariation

/-- The system instruction of a draft-generation call. -/
def draftSystemPrompt (forceVariation : Bool) : Str :=
  joinSep (str " ")
    ([str "You are Soulaware, an elite AI coaching guide for life, career, and purpose clarity.",
      str "Do not use therapy diagnosis language.",
      str "Write adaptive, specific coaching that sounds human and contextual, not templated.",
      str "Never ask generic questions.",
      str "Return strict JSON with keys reflection, actionStep, followUpQuestion.",
      str "Each field must be concise, specific, and grounded in current user context."] ++
     (if forceVariation then
        [str "This is a retry for similarity. Produce a materially different angle and question."]
      else []))

/-- The parsed result of one draft-generation call (ai-v2.ts
ReplyGeneration). -/
structure ReplyGeneration where
  draft : Option CoachDraft
  usage : UsageMetrics
  raw : Str

/-- Draft generation (ai-v2.ts generateDraftWithModel) over a completed
provider outcome: assemble the prompt, read the raw content, parse the
draft, normalise the usage. -/
def generateDraftWithModel (p : DraftGenParams) (outcome : DraftModelOutcome) :
    ReplyGeneration :=
  let userMessage := draftUserMessage p
  let raw := outcome.content.getD []
  let draft := parseCoachDraft outcome.parsed raw
  let usage := safeUsageFromCompletion outcome.usage userMessage raw
  { draft := draft, usage := usage, raw := raw }

/-- The rolling memory structure (ai-v2.ts SummaryDraft). -/
structure SummaryDraft where
  rollingSummary : Str
  userFacts : List Str
  openLoops : List Str
deriving DecidableEq

/-- The observable outcome of one completed summarisation call. -/
structure SummaryModelOutcome where
  content : Option Str
  usage : Option CompletionUsage
  parsed : Option JsonObj

/-- Memory summarisation (ai-v2.ts summarizeSessionState).  The provider
call is modelled by its optional outcome: the absent outcome covers both a
thrown provider error and is treated like the parse failure, as both fall
through to the deterministic heuristic of the source. -/
def summarizeSessionState (outcome : Option SummaryModelOutcome)
    (profile : SessionProfile) (currentSummary : Str)
    (currentFacts currentLoops : List Str)
    (latestSnapshot : Option StoredPurposeSnapshot) :
    SummaryDraft × UsageMetrics :=
  let userContext := joinSep (str "\n")
    ((lastN 8 profile.userMessages).enum.map
      (fun q => str "U" ++ natToStr (q.1 + 1) ++ str ": " ++ clip q.2 260))
  let input := joinSep (str "\n\n")
    [str "Current rolling summary: " ++ orNone currentSummary,
     str "Current facts: " ++ orNone (joinSep (str " | ") currentFacts),
     str "Current open loops: " ++ orNone (joinSep (str " | ") currentLoops),
     str "Recent user messages:\n" ++ orNone userContext,
     str "Latest snapshot: " ++
       (match latestSnapshot with
        | some s => s.mission ++ str "; " ++ joinSep (str ", ") s.values
        | none => str "none")]
  let modelResult : Option (SummaryDraft × UsageMetrics) :=
    match outcome with
    | some o =>
      match o.parsed with
      | some obj =>
        let raw := o.content.getD []
        let rollingSummary :=
          match getField obj (str "rollingSummary") with
          | some (.jstr s) => jsTrim s
          | _ => currentSummary
        let userFacts :=
          match getField obj (str "userFacts") with
          | some (.jarr elems) =>
              elems.filterMap (fun v : JVal =>
                match v with | .jstr s => some s | _ => none)
          | _ => currentFacts
        let openLoops :=
          match getField obj (str "openLoops") with
          | some (.jarr elems) =>
              elems.filterMap (fun v : JVal =>
                match v with | .jstr s => some s | _ => none)
          | _ => currentLoops
        let usage := safeUsageFromCompletion o.usage input raw
        some
          ({ rollingSummary :=
               if rollingSummary.isEmpty then currentSummary else rollingSummary
             userFacts :=
               (((userFacts.map (fun e => clip (jsTrim e) 120)).filter
                 (fun e => !e.isEmpty)).take 8)
             openLoops :=
               (((openLoops.map (fun e => clip (jsTrim e) 130)).filter
                 (fun e => !e.isEmpty)).take 6) }, usage)
      | none => none
    | none => none
  match modelResult with
  | some r => r
  | none =>
    let fallbackFacts := (mkSet (profile.keywords.take 5)).map
      (fun keyword => str "User repeatedly referenced " ++ keyword ++ str ".")
    let summary : SummaryDraft :=
      { rollingSummary :=
          if 0 < profile.userMessages.length then
            str "User is currently focused on " ++
            orDefault (joinSep (str ", ") (profile.keywords.take 3))
              (str "core direction") ++
            str ", with a " ++ toneStr profile.tone ++ str " tone in the " ++
            stageStr profile.stage ++ str " stage."
          else currentSummary
        userFacts := if !fallbackFacts.isEmpty then fallbackFacts else currentFacts
        openLoops :=
          if !currentLoops.isEmpty then currentLoops
          else
            [str "Clarify the next concrete step on " ++
             (match profile.keywords with
              | [] => str "current goal"
              | k :: _ => k) ++ str "."] }
    let outTokens := estimateTokens
      (summary.rollingSummary ++ joinSep (str " ") summary.userFacts ++
       joinSep (str " ") summary.openLoops)
    (summary,
      { promptTokens := estimateTokens input
        completionTokens := outTokens
        totalTokens := estimateTokens input + outTokens })

/-- The provider oracle of one pipeline invocation: outcomes of the up to
two draft calls and the summarisation call.  An absent outcome models a
thrown provider error at that call. -/
structure ModelOracle where
  firstOutcome : Option DraftModelOutcome
  retryOutcome : Option DraftModelOutcome
  summaryOutcome : Option SummaryModelOutcome

/-- The arguments the orchestrator passed to one outbound draft call, as
observed for the verification of the call discipline. -/
structure DraftCall where
  model : Str
  lens : CoachingLens
  inputText : Str
  avoidPhrases : Str
  forceVariation : Bool
  previousCandidate : Option Str
deriving DecidableEq

/-- The aggregate of the draft-generation attempts of one turn. -/
structure AttemptOutcome where
  finalDraft : Option CoachDraft
  retryCount : Nat
  callLog : List DraftCall
  usage : UsageMetrics
  cost : ℚ
deriving DecidableEq

/-- The call record of the plain first attempt. -/
def attemptCall1 (selectedModel : Str) (initialLens : CoachingLens)
    (mergedInput avoidPhrases : Str) : DraftCall :=
  { model := selectedModel, lens := initialLens, inputText := mergedInput
    avoidPhrases := avoidPhrases, forceVariation := false
    previousCandidate := none }

/-- The generation parameters of the plain first attempt (the argument
record of the first generateDraftWithModel call, lines 910 to 922). -/
def attemptParams1 (selectedModel : Str) (profile : SessionProfile)
    (initialLens : CoachingLens) (latestSnapshot : Option StoredPurposeSnapshot)
    (rollingSummary : Str) (userFacts openLoops : List Str)
    (mergedInput avoidPhrases : Str) : DraftGenParams :=
  { model := selectedModel, profile := profile, lens := initialLens
    latestSnapshot := latestSnapshot, rollingSummary := rollingSummary
    userFacts := userFacts, openLoops := openLoops
    inputText := mergedInput, avoidPhrases := avoidPhrases
    forceVariation := false, previousCandidate := none }

/-- The keyword the question normaliser receives (line 927). -/
def attemptKeyword (profile : SessionProfile) (topic : Str) : Str :=
  match profile.keywords with
  | [] => topic
  | k :: _ => k

/-- A draft with its follow-up question normalised (lines 928 and 961). -/
def normalizeDraftQuestion (profile : SessionProfile) (keyword : Str)
    (d : CoachDraft) : CoachDraft :=
  { d with followUpQuestion := normalizeQuestion d.followUpQuestion profile keyword }

/-- The render seed of the first candidate (line 936). -/
def attemptSeedV1 (mergedInput : Str) (initialLens : CoachingLens)
    (selectedModel : Str) : Str :=
  mergedInput ++ [ ':' ] ++ lensStr initialLens ++ [ ':' ] ++ selectedModel ++
  str ":v1"

/-- The render seed of the retry candidate (line 968). -/
def attemptSeedRetry (mergedInput : Str) (initialLens : CoachingLens)
    (selectedModel : Str) : Str :=
  mergedInput ++ [ ':' ] ++ lensStr initialLens ++ [ ':' ] ++ selectedModel ++
  str ":retry"

/-- The draft-attempt section of the orchestrator (ai-v2.ts
generateCoachReplyV2 lines 908 to 980): one gated attempt, one forced
variation retry passing back the rejected candidate, and usage
accumulated only for completed calls. -/
def runDraftAttempts (oracle : ModelOracle) (profile : SessionProfile)
    (topic mergedInput : Str) (initialLens : CoachingLens)
    (selectedModel : Str) (avoidPhrases : Str) (rollingSummary : Str)
    (userFacts openLoops : List Str)
    (latestSnapshot : Option StoredPurposeSnapshot) : AttemptOutcome :=
  let params1 := attemptParams1 selectedModel profile initialLens
    latestSnapshot rollingSummary userFacts openLoops mergedInput avoidPhrases
  let call1 := attemptCall1 selectedModel initialLens mergedInput avoidPhrases
  match oracle.firstOutcome with
  | none =>
      { finalDraft := none, retryCount := 0, callLog := [call1]
        usage := zeroUsage, cost := 0 }
  | some out1 =>
    let first := generateDraftWithModel params1 out1
    let u1 := first.usage
    let c1 := estimateCostUsd selectedModel u1
    match first.draft with
    | none =>
        { finalDraft := none, retryCount := 0, callLog := [call1]
          usage := u1, cost := c1 }
    | some d0 =>
      let keyword := attemptKeyword profile topic
      let d1 := normalizeDraftQuestion profile keyword d0
      let candidate := formatAdaptiveReply d1
        (attemptSeedV1 mergedInput initialLens selectedModel)
      if !isLowQualityReply candidate profile.assistantMessages then
        { finalDraft := some d1, retryCount := 0, callLog := [call1]
          usage := u1, cost := c1 }
      else
        let params2 := { params1 with
          forceVariation := true, previousCandidate := some candidate }
        let call2 := { call1 with
          forceVariation := true, previousCandidate := some candidate }
        match oracle.retryOutcome with
        | none =>
            { finalDraft := none, retryCount := 1, callLog := [call1, call2]
              usage := u1, cost := c1 }
        | some out2 =>
          let retry := generateDraftWithModel params2 out2
          let u := addUsage u1 retry.usage
          let c := c1 + estimateCostUsd selectedModel retry.usage
          match retry.draft with
          | none =>
              { finalDraft := none, retryCount := 1, callLog := [call1, call2]
                usage := u, cost := c }
          | some r0 =>
            let r1 := normalizeDraftQuestion profile keyword r0
            let retryCandidate := formatAdaptiveReply r1
              (attemptSeedRetry mergedInput initialLens selectedModel)
            if !isLowQualityReply retryCandidate profile.assistantMessages then
              { finalDraft := some r1, retryCount := 1, callLog := [call1, call2]
                usage := u, cost := c }
            else
              { finalDraft := none, retryCount := 1, callLog := [call1, call2]
                usage := u, cost := c }

/-- The request of one pipeline invocation (GenerateCoachReplyV2Params). -/
structure GenerateParams where
  text : Str
  history : List ChatHistoryMessage
  latestSnapshot : Option StoredPurposeSnapshot
  sessionState : ChatSessionState
deriving DecidableEq

/-- The optional-field session-state patch the turn emits. -/
structure SessionStatePatch where
  pendingClarifier : Option Bool := none
  clarifierTopic : Option Str := none
  lastLens : Option (Option CoachingLens) := none
  lastModel : Option Str := none
  rollingSummary : Option Str := none
  userFacts : Option (List Str) := none
  openLoops : Option (List Str) := none
deriving DecidableEq

/-- Terminal response kinds of the turn. -/
inductive ResponseKind where
  | clarify | coach
deriving DecidableEq

/-- The result of one pipeline invocation (GenerateCoachReplyV2Result).
The call log and the summary-call flag record the outbound provider
traffic of the invocation for the verification of the call discipline. -/
structure GenerateResult where
  reply : Str
  responseKind : ResponseKind
  lens : CoachingLens
  modelUsed : Str
  clarifierPending : Bool
  retryCount : Nat
  approximateTokens : Nat
  estimatedCostUsd : ℚ
  summaryUpdated : Bool
  lowQualityFallback : Bool
  sessionStatePatch : SessionStatePatch
  callLog : List DraftCall
  summaryCalled : Bool
deriving DecidableEq

/-- The turn profile (ai-v2.ts generateCoachReplyV2 line 850): built from
the history and the raw input text. -/
def turnProfile (params : GenerateParams) : SessionProfile :=
  buildSessionProfile params.history params.text

/-- The clarifier topic of the turn (line 851). -/
def turnTopic (params : GenerateParams) : Str :=
  pickTopic params.text (turnProfile params)

/-- The lens seed of the turn (lines 852 to 856). -/
def turnLensSeed (params : GenerateParams) : Str :=
  params.text ++ [ ':' ] ++ lastLensStr params.sessionState.lastLens ++
  [ ':' ] ++ stageStr (turnProfile params).stage ++ [ ':' ] ++
  intentStr (turnProfile params).dominantIntent

/-- The initial lens of the turn (lines 852 to 856). -/
def turnInitialLens (params : GenerateParams) : CoachingLens :=
  chooseLens (turnProfile params) params.sessionState.lastLens
    (turnLensSeed params)

/-- The merged input of the turn (lines 881 to 883): the stored clarifier
topic is prepended when a clarifier is pending. -/
def turnMergedInput (params : GenerateParams) : Str :=
  if params.sessionState.pendingClarifier then
    jsTrim (params.sessionState.clarifierTopic ++ str ". " ++ params.text)
  else params.text

/-- The complexity score of the turn (line 884). -/
def turnScore (params : GenerateParams) : Nat :=
  complexityScore (turnProfile params) (turnMergedInput params)

/-- The routed model of the turn (line 885). -/
def turnSelectedModel (params : GenerateParams) : Str :=
  if 4 ≤ turnScore params then envOpenAiChatModelPrimary
  else envOpenAiChatModelFast

/-- The anti-repetition block of the turn (line 886). -/
def turnAvoidPhrases (params : GenerateParams) : Str :=
  buildAvoidPhraseBlock (turnProfile params).assistantMessages

/-- The draft attempts of the turn (lines 906 to 980): nothing happens
without a configured client. -/
def turnAttempts (client : Option ModelOracle) (params : GenerateParams) :
    AttemptOutcome :=
  match client with
  | none =>
      { finalDraft := none, retryCount := 0, callLog := []
        usage := zeroUsage, cost := 0 }
  | some oracle =>
      runDraftAttempts oracle (turnProfile params) (turnTopic params)
        (turnMergedInput params) (turnInitialLens params)
        (turnSelectedModel params) (turnAvoidPhrases params)
        params.sessionState.rollingSummary params.sessionState.userFacts
        params.sessionState.openLoops params.latestSnapshot

/-- The final draft of the turn with the fallback flag (lines 982 to
989). -/
def turnFinalDraft (client : Option ModelOracle) (params : GenerateParams) :
    CoachDraft × Bool :=
  match (turnAttempts client params).finalDraft with
  | some d => (d, false)
  | none =>
      (deterministicFallbackReply (turnProfile params) (turnInitialLens params)
        (turnMergedInput params), true)

/-- The reply seed of the turn (lines 991 to 994). -/
def turnReplySeed (params : GenerateParams) : Str :=
  turnMergedInput params ++ [ ':' ] ++ lensStr (turnInitialLens params) ++
  [ ':' ] ++ stageStr (turnProfile params).stage ++ [ ':' ] ++
  intentStr (turnProfile params).dominantIntent

/-- The summarisation step of the turn (lines 1004 to 1024): runs when a
client is configured and the cadence condition holds. -/
def turnSummaryStep (client : Option ModelOracle) (params : GenerateParams) :
    Option (SummaryDraft × UsageMetrics) :=
  match client with
  | some oracle =>
    if 0 < (turnProfile params).userMessages.length ∧
        ((turnProfile params).userMessages.length % 4 = 0 ∨
         5000 ≤ (turnProfile params).totalChars) then
      some (summarizeSessionState oracle.summaryOutcome (turnProfile params)
        params.sessionState.rollingSummary params.sessionState.userFacts
        params.sessionState.openLoops params.latestSnapshot)
    else none
  | none => none

/-- The clarifier short-circuit result (lines 860 to 879). -/
def clarifyResult (params : GenerateParams) : GenerateResult :=
  { reply := buildClarifierQuestion (turnTopic params)
      (turnProfile params).dominantIntent
    responseKind := .clarify
    lens := .clarify
    modelUsed := envOpenAiChatModelFast
    clarifierPending := true
    retryCount := 0
    approximateTokens := 0
    estimatedCostUsd := 0
    summaryUpdated := false
    lowQualityFallback := false
    sessionStatePatch :=
      { pendingClarifier := some true, clarifierTopic := some (turnTopic params)
        lastLens := some (some .clarify)
        lastModel := some envOpenAiChatModelFast }
    callLog := []
    summaryCalled := false }

/-- The coaching result of the turn (lines 881 to 1038). -/
def coachResult (client : Option ModelOracle) (params : GenerateParams) :
    GenerateResult :=
  let attempts := turnAttempts client params
  let reply := formatAdaptiveReply (turnFinalDraft client params).1
    (turnReplySeed params)
  let basePatch : SessionStatePatch :=
    { pendingClarifier := some false, clarifierTopic := some []
      lastLens := some (some (turnInitialLens params))
      lastModel := some (turnSelectedModel params) }
  match turnSummaryStep client params with
  | none =>
      { reply := reply, responseKind := .coach, lens := turnInitialLens params
        modelUsed := turnSelectedModel params, clarifierPending := false
        retryCount := attempts.retryCount
        approximateTokens := attempts.usage.totalTokens
        estimatedCostUsd := roundSixPlaces attempts.cost
        summaryUpdated := false
        lowQualityFallback := (turnFinalDraft client params).2
        sessionStatePatch := basePatch, callLog := attempts.callLog
        summaryCalled := false }
  | some su =>
      let usage := addUsage attempts.usage su.2
      let cost := attempts.cost + estimateCostUsd envOpenAiSummaryModel su.2
      { reply := reply, responseKind := .coach, lens := turnInitialLens params
        modelUsed := turnSelectedModel params, clarifierPending := false
        retryCount := attempts.retryCount
        approximateTokens := usage.totalTokens
        estimatedCostUsd := roundSixPlaces cost
        summaryUpdated := true
        lowQualityFallback := (turnFinalDraft client params).2
        sessionStatePatch :=
          { basePatch with
            rollingSummary := some su.1.rollingSummary
            userFacts := some su.1.userFacts
            openLoops := some su.1.openLoops }
        callLog := attempts.callLog
        summaryCalled := true }

/-- The orchestrator (ai-v2.ts generateCoachReplyV2): clarifier
short-circuit, merged input, model routing, gated draft attempts with the
deterministic fallback, and the periodic memory summarisation. -/
def generateCoachReplyV2 (client : Option ModelOracle)
    (params : GenerateParams) : GenerateResult :=
  if isLowInformationInput params.text && !params.sessionState.pendingClarifier
  then clarifyResult params
  else coachResult client params

/-- The call record of the turn's plain first attempt. -/
def turnDraftCall (params : GenerateParams) : DraftCall :=
  attemptCall1 (turnSelectedModel params) (turnInitialLens params)
    (turnMergedInput params) (turnAvoidPhrases params)

/-- The generation parameters of the turn's plain first attempt. -/
def turnDraftParams (params : GenerateParams) : DraftGenParams :=
  attemptParams1 (turnSelectedModel params) (turnProfile params)
    (turnInitialLens params) params.latestSnapshot
    params.sessionState.rollingSummary params.sessionState.userFacts
    params.sessionState.openLoops (turnMergedInput params)
    (turnAvoidPhrases params)

/-- The keyword of the turn's question normalisation. -/
def turnKeyword (params : GenerateParams) : Str :=
  attemptKeyword (turnProfile params) (turnTopic params)

/-- The rendered first candidate of the turn, when the first call
completed and parsed. -/
def turnFirstCandidate (oracle : ModelOracle) (params : GenerateParams) :
    Option Str :=
  match oracle.firstOutcome with
  | none => none
  | some out1 =>
    match (generateDraftWithModel (turnDraftParams params) out1).draft with
    | none => none
    | some d0 =>
      some (formatAdaptiveReply
        (normalizeDraftQuestion (turnProfile params) (turnKeyword params) d0)
        (attemptSeedV1 (turnMergedInput params) (turnInitialLens params)
          (turnSelectedModel params)))

/-- The rendered retry candidate of the turn, when the first candidate was
rejected and the retry completed and parsed. -/
def turnRetryCandidate (oracle : ModelOracle) (params : GenerateParams) :
    Option Str :=
  match turnFirstCandidate oracle params with
  | none => none
  | some cand =>
    match oracle.retryOutcome with
    | none => none
    | some out2 =>
      match (generateDraftWithModel
          { turnDraftParams params with
            forceVariation := true, previousCandidate := some cand }
          out2).draft with
      | none => none
      | some r0 =>
        some (formatAdaptiveReply
          (normalizeDraftQuestion (turnProfile params) (turnKeyword params) r0)
          (attemptSeedRetry (turnMergedInput params) (turnInitialLens params)
            (turnSelectedModel params)))

/-! Concrete instances used by the witnesses and counterexamples below. -/

/-- The freshly created session state (repository getOrCreateSessionState). -/
def emptySessionState : ChatSessionState :=
  { sessionId := [], rollingSummary := [], userFacts := [], openLoops := []
    pendingClarifier := false, clarifierTopic := [], lastLens := none
    lastModel := [], updatedAt := [] }

/-- A three-token low-information request against a fresh session. -/
def lowInfoParams : GenerateParams :=
  { text := str "idk", history := [], latestSnapshot := none
    sessionState := emptySessionState }

/-- A seven-token actionable request against a fresh session. -/
def actionableParams : GenerateParams :=
  { text := str "plan the product launch work this week", history := []
    latestSnapshot := none, sessionState := emptySessionState }

/-- A decision-heavy request containing tradeoff vocabulary. -/
def c7params : GenerateParams :=
  { text := str "I cannot decide between taking the new job offer or staying at my current company, the tradeoffs feel huge"
    history := [], latestSnapshot := none, sessionState := emptySessionState }

/-- An opening-stage profile with decision intent. -/
def c5profile : SessionProfile :=
  { dominantIntent := .decision, tone := .neutral, stage := .opening
    keywords := [], userMessages := [], assistantMessages := [], totalChars := 0 }

/-- An exploring-stage profile with purpose intent. -/
def c6profile : SessionProfile :=
  { dominantIntent := .purpose, tone := .neutral, stage := .exploring
    keywords := [], userMessages := [], assistantMessages := [], totalChars := 0 }

/-- A history of four identical user turns, triggering the summary
cadence. -/
def c9history : List ChatHistoryMessage :=
  List.replicate 4
    { id := [], role := ChatRole.user, content := str "hello there"
      createdAt := [], mode := PromptMode.coach }

/-- A parsed summary object carrying one over-long fact. -/
def c9parsed : JsonObj :=
  [(str "userFacts", JVal.jarr [JVal.jstr (List.replicate 121 'a')]),
   (str "openLoops", JVal.jarr [])]

/-- A completed summarisation outcome carrying the over-long fact. -/
def c9outcome : SummaryModelOutcome :=
  { content := none, usage := none, parsed := some c9parsed }

/-- An oracle whose draft calls throw and whose summary call returns the
over-long fact. -/
def c9oracle : ModelOracle :=
  { firstOutcome := none, retryOutcome := none, summaryOutcome := some c9outcome }

/-- A pending-clarifier turn over the four-turn history. -/
def c9params : GenerateParams :=
  { text := str "x", history := c9history, latestSnapshot := none
    sessionState := { emptySessionState with
      pendingClarifier := true, clarifierTopic := str "t" } }

/-- A parsed draft object whose reflection matches a banned generic
pattern, so the rendered candidate always fails the quality gate. -/
def c2draftObj : JsonObj :=
  [(str "reflection", JVal.jstr (str "Take a meaningful step toward the goal you named")),
   (str "actionStep", JVal.jstr (str "Block twenty minutes tomorrow morning and draft the outline")),
   (str "followUpQuestion", JVal.jstr (str "What single action would make this week feel successful?"))]

/-- An oracle whose first draft call parses into the generic draft and
whose retry throws. -/
def c2oracle : ModelOracle :=
  { firstOutcome := some
      { content := some (str "ignored"), usage := none, parsed := some c2draftObj }
    retryOutcome := none
    summaryOutcome := none }

/-- A pending-clarifier turn used to reach draft generation. -/
def c2params : GenerateParams :=
  { text := str "ship the feature", history := [], latestSnapshot := none
    sessionState := { emptySessionState with
      pendingClarifier := true, clarifierTopic := str "launch" } }

/-- A pending-clarifier turn whose stored topic carries purpose intent
that the raw text lacks. -/
def c8params : GenerateParams :=
  { text := str "torn between two great paths here and cannot settle"
    history := [], latestSnapshot := none
    sessionState := { emptySessionState with
      pendingClarifier := true, clarifierTopic := str "purpose" } }

/-- A history of thirteen user turns. -/
def c10history : List ChatHistoryMessage :=
  List.replicate 13
    { id := [], role := ChatRole.user, content := str "hi", createdAt := []
      mode := PromptMode.coach }

end Soulaware

namespace Soulaware

/-! Shared lemmas. -/

/-- Membership survives dropWhile for elements the predicate rejects. -/
theorem mem_dropWhile_of_mem {p : α → Bool} {c : α} :
    ∀ {l : List α}, c ∈ l → p c = false → c ∈ l.dropWhile p
  | a :: t, h, hc => by
    by_cases hp : p a
    · rw [List.dropWhile_cons_of_pos hp]
      rcases List.mem_cons.mp h with rfl | ht
      · rw [hp] at hc; cases hc
      · exact mem_dropWhile_of_mem ht hc
    · rw [List.dropWhile_cons_of_neg (by simp [hp])]
      exact h

/-- A non-whitespace member of a text survives the trim. -/
theorem mem_jsTrim (c : Char) {l : Str} (h : c ∈ l)
    (hc : jsWhitespace c = false) : c ∈ jsTrim l := by
  unfold jsTrim jsTrimRight jsTrimLeft
  have h1 : c ∈ l.dropWhile jsWhitespace := mem_dropWhile_of_mem h hc
  have h2 := mem_dropWhile_of_mem (List.mem_reverse.mpr h1) hc
  exact List.mem_reverse.mpr h2

/-- A text containing a non-whitespace character trims to a nonempty
text. -/
theorem jsTrim_ne_nil (c : Char) {l : Str} (h : c ∈ l)
    (hc : jsWhitespace c = false) : jsTrim l ≠ [] :=
  List.ne_nil_of_mem (mem_jsTrim c h hc)

/-- The seeded index is always inside the option list. -/
theorem seededIndex_lt (s : Str) {n : Nat} (h : 0 < n) : seededIndex s n < n :=
  Nat.mod_lt _ h

/-- Every replacement question template contains a question mark. -/
theorem qmark_mem_replacements (intent : DominantIntent) (keyword : Str) :
    ∀ q ∈ questionReplacements intent keyword, '?' ∈ q := by
  cases intent <;> intro q hq <;>
    simp only [questionReplacements, List.mem_cons, List.not_mem_nil,
      or_false] at hq <;>
    rcases hq with rfl | rfl <;>
    exact List.mem_append_right _ (by decide)

/-- The normalised question always contains a question mark. -/
theorem qmark_mem_normalizeQuestion (q : Str) (profile : SessionProfile)
    (keyword : Str) : '?' ∈ normalizeQuestion q profile keyword := by
  unfold normalizeQuestion
  have hq2 : '?' ∈
      (if !endsWithQ (jsTrim q) then stripTrailingDots (jsTrim q) ++ [ '?' ]
       else jsTrim q) := by
    by_cases he : endsWithQ (jsTrim q) = true
    · rw [if_neg (by simp [he])]
      unfold endsWithQ at he
      rcases hg : (jsTrim q).getLast? with _ | c
      · rw [hg] at he; cases he
      · rw [hg] at he
        have : c = '?' := by simpa using he
        subst this
        exact List.mem_of_mem_getLast? (by rw [hg]; rfl)
    · rw [if_pos (by simp [he])]
      exact List.mem_append_right _ (by decide)
  by_cases hc : (if !endsWithQ (jsTrim q) then
      stripTrailingDots (jsTrim q) ++ [ '?' ] else jsTrim q).length < 20 ∨
      BANNED_QUESTION_PATTERNS.any (fun p => testPat p
        (if !endsWithQ (jsTrim q) then stripTrailingDots (jsTrim q) ++ [ '?' ]
         else jsTrim q)) = true
  · rw [if_pos hc]
    rw [List.getD_eq_get?]
    rcases ho : (questionReplacements profile.dominantIntent keyword).get?
        (seededIndex (keyword ++ [ ':' ] ++ stageStr profile.stage)
          (questionReplacements profile.dominantIntent keyword).length)
      with _ | o
    · exact hq2
    · exact qmark_mem_replacements profile.dominantIntent keyword o
        (List.get?_mem ho)
  · rw [if_neg hc]
    exact hq2

/-- The overlap score vanishes when the second text normalises to
nothing. -/
theorem overlap_score_zero_right {a b : Str}
    (h : normalizeForCompare b = []) : lexicalOverlapScore a b = 0 := by
  have hb : overlapWordSet b = [] := by
    rw [overlapWordSet, h]; rfl
  unfold lexicalOverlapScore
  rw [hb]
  simp

/-- A cross-multiplied comparison of naturals agrees with the rational
seventy-percent threshold on their quotient. -/
theorem crossmul_seventy_iff {ov mn : ℕ} (hmn : 0 < mn) :
    ((7 : ℚ) / 10 ≤ (ov : ℚ) / (mn : ℚ)) ↔ 7 * mn ≤ 10 * ov := by
  rw [div_le_div_iff (by norm_num) (by exact_mod_cast hmn),
    mul_comm (ov : ℚ) 10]
  exact_mod_cast Iff.rfl

/-- The cross-multiplied seventy-percent test agrees with the rational
score comparison. -/
theorem overlapAtLeastSeventy_iff (a b : Str) :
    overlapAtLeastSeventy a b = true ↔
      (7 / 10 : ℚ) ≤ lexicalOverlapScore a b := by
  show (if (overlapWordSet a).length = 0 ∨ (overlapWordSet b).length = 0
        then false
        else decide
          (7 * min (overlapWordSet a).length (overlapWordSet b).length ≤
           10 * ((overlapWordSet a).filter
             (fun w => w ∈ overlapWordSet b)).length)) = true ↔
      (7 / 10 : ℚ) ≤
      (if (overlapWordSet a).length = 0 ∨ (overlapWordSet b).length = 0
       then 0
       else (((overlapWordSet a).filter
           (fun w => w ∈ overlapWordSet b)).length : ℚ) /
         ((min (overlapWordSet a).length (overlapWordSet b).length : ℕ) : ℚ))
  by_cases h : (overlapWordSet a).length = 0 ∨ (overlapWordSet b).length = 0
  · rw [if_pos h, if_pos h]
    simp only [Bool.false_eq_true, false_iff]
    norm_num
  · rw [if_neg h, if_neg h]
    push_neg at h
    have hmn : 0 < min (overlapWordSet a).length (overlapWordSet b).length := by
      omega
    rw [decide_eq_true_eq]
    generalize ((overlapWordSet a).filter
      (fun w => w ∈ overlapWordSet b)).length = ov
    generalize hg : min (overlapWordSet a).length (overlapWordSet b).length = mn
      at hmn ⊢
    exact (crossmul_seventy_iff hmn).symm

/-! Claim C5: lens selection at the opening stage. -/

/-- C5 counterexample: an opening-stage profile with decision intent makes
the lens selector return the decision lens, not clarify, refuting the
claim that the opening stage always yields the clarify lens. -/
theorem C5_counterexample :
    c5profile.stage = SessionStage.opening ∧
    chooseLens c5profile none [] = CoachingLens.decision ∧
    CoachingLens.decision ≠ CoachingLens.clarify := by
  refine ⟨rfl, ?_, by decide⟩
  decide

/-- C5 (amended): the lens selector never inspects the stage; an
opening-stage profile is treated exactly like any other stage with the
same intent, previous lens and seed, so clarify is returned only when the
seeded choice lands on it. -/
theorem C5_stage_irrelevant (p : SessionProfile) (s₁ s₂ : SessionStage)
    (prev : Option CoachingLens) (seed : Str) :
    chooseLens { p with stage := s₁ } prev seed =
    chooseLens { p with stage := s₂ } prev seed := rfl

/-! Claim C6: non-repetition of the selected lens. -/

/-- Characterisation of lens repetition: the selector returns the previous
lens only when that lens is clarify, apart from the degenerate
single-candidate case. -/
theorem chooseLens_repeat_spec (profile : SessionProfile)
    (prev : Option CoachingLens) (seed : Str) :
    chooseLens profile prev seed = CoachingLens.clarify ∨
    some (chooseLens profile prev seed) ≠ prev ∨
    (LENS_BY_INTENT profile.dominantIntent).length ≤ 1 := by
  unfold chooseLens
  by_cases h0 : (LENS_BY_INTENT profile.dominantIntent).length = 0
  · rw [if_pos h0]
    exact Or.inl rfl
  · rw [if_neg h0]
    have hpair : ∃ x ∈ LENS_BY_INTENT profile.dominantIntent,
        ∃ y ∈ LENS_BY_INTENT profile.dominantIntent, x ≠ y := by
      cases profile.dominantIntent <;> decide
    by_cases hsel :
        some ((LENS_BY_INTENT profile.dominantIntent).getD
          (seededIndex seed (LENS_BY_INTENT profile.dominantIntent).length)
          CoachingLens.clarify) = prev ∧
        (LENS_BY_INTENT profile.dominantIntent).getD
          (seededIndex seed (LENS_BY_INTENT profile.dominantIntent).length)
          CoachingLens.clarify ≠ CoachingLens.clarify
    · rw [if_pos hsel]
      obtain ⟨x, hx, y, hy, hxy⟩ := hpair
      have hex : ∃ z ∈ LENS_BY_INTENT profile.dominantIntent,
          decide (some z ≠ prev) = true := by
        by_cases hxp : some x = prev
        · refine ⟨y, hy, ?_⟩
          simp only [decide_eq_true_eq]
          intro hyp
          exact hxy (Option.some.inj (hxp.trans hyp.symm))
        · exact ⟨x, hx, by simp only [decide_eq_true_eq]; exact hxp⟩
      obtain ⟨alt, halt⟩ := Option.isSome_iff_exists.mp
        (List.find?_isSome.mpr hex)
      rw [halt]
      have := List.find?_some halt
      simp only [decide_eq_true_eq] at this
      exact Or.inr (Or.inl this)
    · rw [if_neg hsel]
      by_cases hp :
          some ((LENS_BY_INTENT profile.dominantIntent).getD
            (seededIndex seed (LENS_BY_INTENT profile.dominantIntent).length)
            CoachingLens.clarify) = prev
      · left
        by_contra hne
        exact hsel ⟨hp, hne⟩
      · exact Or.inr (Or.inl hp)

/-- C6 counterexample: with purpose intent, previous lens clarify and a
seed hashing onto the clarify candidate, the selector returns the previous
lens even though the candidate list has four lenses, refuting the claim
that repetition happens only for a sole candidate. -/
theorem C6_counterexample :
    1 < (LENS_BY_INTENT c6profile.dominantIntent).length ∧
    c6profile.stage ≠ SessionStage.opening ∧
    chooseLens c6profile (some CoachingLens.clarify) (str "a") =
      CoachingLens.clarify := by
  refine ⟨by decide, by decide, ?_⟩
  decide

/-- C6 (amended): for every profile, previous lens and seed, the selector
returns a lens equal to the previous lens only when that lens is clarify
or the candidate list has at most one entry. -/
theorem C6_lens_nonrepetition (profile : SessionProfile)
    (prev : Option CoachingLens) (seed : Str)
    (h : some (chooseLens profile prev seed) = prev) :
    chooseLens profile prev seed = CoachingLens.clarify ∨
    (LENS_BY_INTENT profile.dominantIntent).length ≤ 1 := by
  rcases chooseLens_repeat_spec profile prev seed with hc | hne | hone
  · exact Or.inl hc
  · exact absurd h hne
  · exact Or.inr hone

/-- C6 witness: the amended statement applied at the concrete repeated
clarify selection. -/
theorem C6_witness :
    chooseLens c6profile (some CoachingLens.clarify) (str "a") =
      CoachingLens.clarify ∨
    (LENS_BY_INTENT c6profile.dominantIntent).length ≤ 1 :=
  C6_lens_nonrepetition c6profile (some CoachingLens.clarify) (str "a")
    (by decide)

/-! Claim C10: the stage step function. -/

/-- C10 counterexample: a history of thirteen user turns yields the
planning stage, not accountability, refuting the claim that more than
twelve user turns give the accountability stage. -/
theorem C10_counterexample :
    12 < (c10history.filter (fun m => m.role = ChatRole.user)).length ∧
    (buildSessionProfile c10history (str "go")).stage = SessionStage.planning ∧
    SessionStage.planning ≠ SessionStage.accountability := by
  refine ⟨by decide, ?_, by decide⟩
  decide

/-- C10 (amended): the profiler caps the counted user turns at eight
before applying the step function, so its stage is the step function of
the capped count — at most two turns give opening, at most six exploring,
and everything else planning; the accountability stage is never produced
by the profiler, although the raw step function maps counts above twelve
to it. -/
theorem C10_stage_step (history : List ChatHistoryMessage) (text : Str) :
    (buildSessionProfile history text).stage =
      detectStage
        (min (history.filter (fun m => m.role = ChatRole.user)).length 8) ∧
    (∀ n : Nat, detectStage n =
      if n ≤ 2 then SessionStage.opening
      else if n ≤ 6 then SessionStage.exploring
      else if n ≤ 12 then SessionStage.planning
      else SessionStage.accountability) ∧
    (buildSessionProfile history text).stage ≠ SessionStage.accountability := by
  have hlen : ((lastN 8 (history.filter (fun m => m.role = ChatRole.user))).map
      (fun m => m.content)).length =
      min (history.filter (fun m => m.role = ChatRole.user)).length 8 := by
    simp only [List.length_map, lastN, List.length_drop]
    omega
  have hstage : (buildSessionProfile history text).stage =
      detectStage
        (min (history.filter (fun m => m.role = ChatRole.user)).length 8) := by
    show detectStage ((lastN 8 (history.filter
        (fun m => m.role = ChatRole.user))).map (fun m => m.content)).length =
      detectStage (min (history.filter (fun m => m.role = ChatRole.user)).length 8)
    rw [hlen]
  refine ⟨hstage, fun n => rfl, ?_⟩
  rw [hstage]
  unfold detectStage
  split_ifs with h1 h2 h3
  · decide
  · decide
  · decide
  · exact absurd
      (by omega :
        min (history.filter (fun m => m.role = ChatRole.user)).length 8 ≤ 12)
      h3

/-! Claim C3: the quality gate characterisation. -/

/-- C3 counterexample: a candidate and a prior turn that both normalise to
the empty text.  The normalised forms are equal, so the claimed
characterisation demands rejection, but the gate skips prior turns with an
empty normalised form and accepts the candidate. -/
theorem C3_counterexample :
    ¬(isLowQualityReply (str "???") [str "!!!"] = true ↔
      ((∃ p ∈ GENERIC_PATTERNS, testPat p (str "???") = true) ∨
       ∃ prev ∈ lastN 3 [str "!!!"],
         normalizeForCompare prev = normalizeForCompare (str "???") ∨
         (7 / 10 : ℚ) ≤ lexicalOverlapScore (str "???") prev)) := by
  intro hiff
  have hmem : str "!!!" ∈ lastN 3 [str "!!!"] := by decide
  have heq : normalizeForCompare (str "!!!") =
      normalizeForCompare (str "???") := by decide
  have htrue : isLowQualityReply (str "???") [str "!!!"] = true :=
    hiff.mpr (Or.inr ⟨str "!!!", hmem, Or.inl heq⟩)
  have hfalse : isLowQualityReply (str "???") [str "!!!"] = false := by decide
  rw [htrue] at hfalse
  cases hfalse

/-- C3 (amended): the quality gate rejects a candidate exactly when it
matches a banned generic pattern, or its normalised form equals the
nonempty normalised form of one of the last three prior turns, or its
lexical overlap score against one of the last three prior turns is at
least seventy percent.  The only change against the claim is the
nonemptiness qualifier on the duplicate comparison. -/
theorem C3_gate_characterization (candidate : Str) (messages : List Str) :
    isLowQualityReply candidate messages = true ↔
      ((∃ p ∈ GENERIC_PATTERNS, testPat p candidate = true) ∨
       ∃ prev ∈ lastN 3 messages,
         (normalizeForCompare prev ≠ [] ∧
          normalizeForCompare prev = normalizeForCompare candidate) ∨
         (7 / 10 : ℚ) ≤ lexicalOverlapScore candidate prev) := by
  unfold isLowQualityReply
  by_cases hg : GENERIC_PATTERNS.any (fun p => testPat p candidate) = true
  · rw [if_pos hg]
    simp only [true_iff]
    exact Or.inl (by simpa using List.any_eq_true.mp hg)
  · rw [if_neg hg]
    have hgen : ¬∃ p ∈ GENERIC_PATTERNS, testPat p candidate = true := by
      intro hex
      exact hg (List.any_eq_true.mpr (by simpa using hex))
    rw [List.any_eq_true]
    constructor
    · rintro ⟨prev, hprev, hbody⟩
      refine Or.inr ⟨prev, hprev, ?_⟩
      by_cases hemp : (normalizeForCompare prev).isEmpty
      · rw [if_pos hemp] at hbody
        cases hbody
      · rw [if_neg hemp] at hbody
        by_cases heqn : normalizeForCompare prev = normalizeForCompare candidate
        · exact Or.inl ⟨by simpa using hemp, heqn⟩
        · rw [if_neg heqn] at hbody
          exact Or.inr ((overlapAtLeastSeventy_iff candidate prev).mp hbody)
    · rintro (hex | ⟨prev, hprev, hcase⟩)
      · exact absurd hex hgen
      · refine ⟨prev, hprev, ?_⟩
        rcases hcase with ⟨hne, heqn⟩ | hscore
        · rw [if_neg (by simpa using hne), if_pos heqn]
        · have hne : ¬(normalizeForCompare prev).isEmpty := by
            intro hemp
            have h0 : lexicalOverlapScore candidate prev = 0 :=
              overlap_score_zero_right (by simpa using hemp)
            rw [h0] at hscore
            norm_num at hscore
          rw [if_neg hne]
          by_cases heqn : normalizeForCompare prev = normalizeForCompare candidate
          · rw [if_pos heqn]
          · rw [if_neg heqn]
            exact (overlapAtLeastSeventy_iff candidate prev).mpr hscore

/-! Claim C7: the model router. -/

/-- A cross-multiplied comparison of naturals agrees with the rational
threshold comparison on their quotients. -/
theorem crossmul_ratio_iff {p q a b : ℕ} (hq : 0 < q) (hb : 0 < b) :
    ((p : ℚ) / (q : ℚ) ≤ (a : ℚ) / (b : ℚ)) ↔ p * b ≤ q * a := by
  rw [div_le_div_iff (by exact_mod_cast hq) (by exact_mod_cast hb),
    mul_comm (a : ℚ) (q : ℚ)]
  exact_mod_cast Iff.rfl

/-- C7: the complexity score is the stated additive sum, and on the
coaching path the primary model tier is selected exactly when the score of
the profile and merged input reaches four. -/
theorem C7_model_router :
    (∀ (profile : SessionProfile) (text : Str),
      complexityScore profile text =
        (if 35 ≤ (toWordTokens text).length then 2 else 0) +
        (if profile.stage = SessionStage.planning ∨
            profile.stage = SessionStage.accountability then 1 else 0) +
        (if profile.dominantIntent = DominantIntent.decision ∨
            profile.dominantIntent = DominantIntent.purpose then 2 else 0) +
        (if profile.tone = EmotionalTone.stressed ∨
            profile.tone = EmotionalTone.uncertain then 1 else 0) +
        (if testAny [str "between", str "tradeoff", str "multiple",
            str "options", str "conflict"] (toLowerStr text) then 2 else 0) +
        (if 3200 ≤ profile.totalChars then 1 else 0)) ∧
    (∀ (client : Option ModelOracle) (params : GenerateParams),
      ¬(isLowInformationInput params.text = true ∧
        params.sessionState.pendingClarifier = false) →
      (generateCoachReplyV2 client params).modelUsed =
        if 4 ≤ complexityScore (buildSessionProfile params.history params.text)
            (turnMergedInput params)
        then envOpenAiChatModelPrimary else envOpenAiChatModelFast) := by
  constructor
  · intro profile text
    simp only [complexityScore]
    omega
  · intro client params h
    have hcond : (isLowInformationInput params.text &&
        !params.sessionState.pendingClarifier) = false := by
      cases hl : isLowInformationInput params.text <;>
        cases hp : params.sessionState.pendingClarifier <;> simp_all
    unfold generateCoachReplyV2
    rw [hcond]
    simp only [Bool.false_eq_true, if_false]
    unfold coachResult
    cases hs : turnSummaryStep client params <;>
      simp only [hs] <;> rfl

/-- C7 witness: a decision-heavy tradeoff message routes to the primary
tier. -/
theorem C7_witness :
    (generateCoachReplyV2 none c7params).modelUsed =
      envOpenAiChatModelPrimary := by
  have h := C7_model_router.2 none c7params (by decide)
  rw [h]
  decide

/-! Claim C4: the low-information detector and the clarifier
short-circuit. -/

/-- C4: the detector fires exactly on the three stated conditions, and a
firing detector with no pending clarifier short-circuits the pipeline into
a clarify response carrying the derived topic, while every other turn
produces a coach response. -/
theorem C4_clarifier_gating :
    (∀ text : Str,
      isLowInformationInput text = true ↔
        ((toWordTokens text).length ≤ 3 ∨
         ((toWordTokens text).length ≤ 8 ∧
          (68 / 100 : ℚ) ≤
            (((toWordTokens text).filter (fun t => t ∈ STOPWORDS)).length : ℚ) /
            ((max (toWordTokens text).length 1 : ℕ) : ℚ)) ∨
         ((toWordTokens text).length ≤ 6 ∧
          ∀ t ∈ toWordTokens text, t ∉ ACTION_VERBS))) ∧
    (∀ (client : Option ModelOracle) (params : GenerateParams),
      (isLowInformationInput params.text = true ∧
          params.sessionState.pendingClarifier = false →
        (generateCoachReplyV2 client params).responseKind =
          ResponseKind.clarify ∧
        (generateCoachReplyV2 client params).reply =
          buildClarifierQuestion (turnTopic params)
            (turnProfile params).dominantIntent ∧
        (generateCoachReplyV2 client params).sessionStatePatch.pendingClarifier =
          some true ∧
        (generateCoachReplyV2 client params).sessionStatePatch.clarifierTopic =
          some (turnTopic params) ∧
        (generateCoachReplyV2 client params).clarifierPending = true) ∧
      (¬(isLowInformationInput params.text = true ∧
          params.sessionState.pendingClarifier = false) →
        (generateCoachReplyV2 client params).responseKind =
          ResponseKind.coach)) := by
  constructor
  · intro text
    unfold isLowInformationInput
    by_cases h3 : (toWordTokens text).length ≤ 3
    · rw [if_pos h3]
      exact ⟨fun _ => Or.inl h3, fun _ => rfl⟩
    · rw [if_neg h3]
      have hmax : 0 < max (toWordTokens text).length 1 := by omega
      have hbridge :
          ((68 : ℚ) / (100 : ℚ) ≤
            (((toWordTokens text).filter (fun t => t ∈ STOPWORDS)).length : ℚ) /
            ((max (toWordTokens text).length 1 : ℕ) : ℚ)) ↔
          68 * max (toWordTokens text).length 1 ≤
            100 * ((toWordTokens text).filter (fun t => t ∈ STOPWORDS)).length :=
        crossmul_ratio_iff (by norm_num) hmax
      simp only [Bool.and_eq_true, decide_eq_true_eq, Bool.not_eq_true',
        List.any_eq_false, decide_eq_false_iff_not]
      split_ifs with hc1 hc2
      · exact ⟨fun _ => Or.inr (Or.inl ⟨hc1.1, hbridge.mpr hc1.2⟩),
          fun _ => rfl⟩
      · exact ⟨fun _ => Or.inr (Or.inr hc2), fun _ => rfl⟩
      · simp only [Bool.false_eq_true, false_iff]
        rintro (hcase | hcase | hcase)
        · exact h3 hcase
        · exact hc1 ⟨hcase.1, hbridge.mp hcase.2⟩
        · exact hc2 hcase
  · intro client params
    constructor
    · rintro ⟨hl, hp⟩
      have hcond : (isLowInformationInput params.text &&
          !params.sessionState.pendingClarifier) = true := by
        rw [hl, hp]; rfl
      unfold generateCoachReplyV2
      simp only [hcond]
      rw [if_pos trivial]
      exact ⟨rfl, rfl, rfl, rfl, rfl⟩
    · intro h
      have hcond : (isLowInformationInput params.text &&
          !params.sessionState.pendingClarifier) = false := by
        cases hl : isLowInformationInput params.text <;>
          cases hp : params.sessionState.pendingClarifier <;> simp_all
      unfold generateCoachReplyV2
      rw [hcond]
      simp only [Bool.false_eq_true, if_false]
      unfold coachResult
      cases hs : turnSummaryStep client params <;>
        simp only [hs] <;> rfl

/-- C4 witness: a three-token message against a fresh session yields the
clarify response with the derived topic stored, and the seven-token
actionable message yields a coach response. -/
theorem C4_witness :
    (generateCoachReplyV2 none lowInfoParams).responseKind =
      ResponseKind.clarify ∧
    (generateCoachReplyV2 none lowInfoParams).sessionStatePatch.pendingClarifier =
      some true ∧
    (generateCoachReplyV2 none actionableParams).responseKind =
      ResponseKind.coach := by
  have h1 := (C4_clarifier_gating.2 none lowInfoParams).1 (by decide)
  have h2 := (C4_clarifier_gating.2 none actionableParams).2 (by decide)
  exact ⟨h1.1, h1.2.2.1, h2⟩

/-! Claim C9: the session-state size bounds. -/

/-- Clipping bounds the length by the limit plus the three-character
ellipsis. -/
theorem clip_length_le (s : Str) (n : Nat) : (clip s n).length ≤ n + 3 := by
  unfold clip
  have h3 : (str "...").length = 3 := by decide
  by_cases h : n < s.length
  · rw [if_pos h]
    rw [List.length_append, List.length_take, h3]
    omega
  · rw [if_neg h]
    omega

/-- The model-path bounds of one summary list: at most the given count of
entries, each within the clip limit plus the ellipsis. -/
theorem summary_list_bounds (entries : List Str) (limit count : Nat) :
    ((((entries.map (fun e => clip (jsTrim e) limit)).filter
        (fun e => !e.isEmpty)).take count).length ≤ count) ∧
    ∀ f ∈ (((entries.map (fun e => clip (jsTrim e) limit)).filter
        (fun e => !e.isEmpty)).take count), f.length ≤ limit + 3 := by
  constructor
  · exact List.length_take_le count _
  · intro f hf
    have hmem := List.mem_of_mem_filter (List.mem_of_mem_take hf)
    obtain ⟨e, _, rfl⟩ := List.mem_map.mp hmem
    exact clip_length_le (jsTrim e) limit

/-- C9 (amended): on the model-summarisation path the patch keeps at most
eight facts of at most 123 characters (the 120-character clip plus the
appended ellipsis) and at most six loops of at most 133 characters; and
every patch that sets the fact list obtained it from the summarisation
step, whose deterministic heuristic path carries entries over without
re-clipping. -/
theorem C9_summary_bounds :
    (∀ (o : SummaryModelOutcome) (obj : JsonObj) (profile : SessionProfile)
        (currentSummary : Str) (currentFacts currentLoops : List Str)
        (snap : Option StoredPurposeSnapshot),
      o.parsed = some obj →
      (summarizeSessionState (some o) profile currentSummary currentFacts
          currentLoops snap).1.userFacts.length ≤ 8 ∧
      (∀ f ∈ (summarizeSessionState (some o) profile currentSummary
          currentFacts currentLoops snap).1.userFacts, f.length ≤ 123) ∧
      (summarizeSessionState (some o) profile currentSummary currentFacts
          currentLoops snap).1.openLoops.length ≤ 6 ∧
      (∀ l ∈ (summarizeSessionState (some o) profile currentSummary
          currentFacts currentLoops snap).1.openLoops, l.length ≤ 133)) ∧
    (∀ (client : Option ModelOracle) (params : GenerateParams) (fs : List Str),
      (generateCoachReplyV2 client params).sessionStatePatch.userFacts =
        some fs →
      ∃ oracle, client = some oracle ∧
        fs = (summarizeSessionState oracle.summaryOutcome (turnProfile params)
          params.sessionState.rollingSummary params.sessionState.userFacts
          params.sessionState.openLoops params.latestSnapshot).1.userFacts) := by
  constructor
  · intro o obj profile currentSummary currentFacts currentLoops snap hp
    simp only [summarizeSessionState, hp]
    refine ⟨?_, ?_, ?_, ?_⟩
    · exact (summary_list_bounds _ 120 8).1
    · exact (summary_list_bounds _ 120 8).2
    · exact (summary_list_bounds _ 130 6).1
    · exact (summary_list_bounds _ 130 6).2
  · intro client params fs hfs
    by_cases hcond : (isLowInformationInput params.text &&
        !params.sessionState.pendingClarifier) = true
    · unfold generateCoachReplyV2 at hfs
      rw [if_pos hcond] at hfs
      cases hfs
    · unfold generateCoachReplyV2 at hfs
      rw [if_neg (by simpa using hcond)] at hfs
      simp only [coachResult] at hfs
      rcases hsum : turnSummaryStep client params with _ | su
      · rw [hsum] at hfs
        simp at hfs
      · rw [hsum] at hfs
        simp only [Option.some.injEq] at hfs
        cases hc : client with
        | none =>
          rw [hc] at hsum
          simp only [turnSummaryStep] at hsum
          exact Option.noConfusion hsum
        | some oracle =>
          rw [hc] at hsum
          simp only [turnSummaryStep] at hsum
          split at hsum
          · simp only [Option.some.injEq] at hsum
            exact ⟨oracle, rfl, by rw [← hfs, ← hsum]⟩
          · cases hsum

set_option maxRecDepth 100000 in
/-- C9 counterexample: a model summary containing a 121-character fact is
clipped to 123 characters, so the emitted patch exceeds the claimed
120-character bound. -/
theorem C9_counterexample :
    (generateCoachReplyV2 (some c9oracle) c9params).sessionStatePatch.userFacts =
      some [List.replicate 120 'a' ++ str "..."] ∧
    120 < (List.replicate 120 'a' ++ str "...").length := by
  constructor
  · decide
  · decide

/-- C9 witness: the model-path bounds applied at the concrete over-long
outcome. -/
theorem C9_witness :
    (summarizeSessionState (some c9outcome) c5profile [] [] []
        none).1.userFacts.length ≤ 8 ∧
    ∀ f ∈ (summarizeSessionState (some c9outcome) c5profile [] [] []
        none).1.userFacts, f.length ≤ 123 := by
  have h := C9_summary_bounds.1 c9outcome c9parsed c5profile [] [] [] none rfl
  exact ⟨h.1, h.2.1⟩

/-! Claim C1: the deterministic fallback guarantee. -/

/-- The reflection of the deterministic fallback trims to a nonempty
text. -/
theorem fallback_reflection_trim_ne (profile : SessionProfile)
    (lens : CoachingLens) (text : Str) :
    jsTrim (deterministicFallbackReply profile lens text).reflection ≠ [] := by
  refine jsTrim_ne_nil 'f' ?_ (by decide)
  simp only [deterministicFallbackReply, List.mem_append]
  exact Or.inl (Or.inl (Or.inr (by decide)))

/-- Every per-lens fallback action trims to a nonempty text. -/
theorem fallback_action_trim_ne (lens : CoachingLens) (keyword : Str) :
    jsTrim (fallbackActionByLens lens keyword) ≠ [] := by
  cases lens <;>
    exact jsTrim_ne_nil 'e'
      (List.mem_append_left _ (List.mem_append_left _ (by decide)))
      (by decide)

/-- The rendered reply is never empty. -/
theorem formatAdaptiveReply_ne_nil (draft : CoachDraft) (seed : Str) :
    formatAdaptiveReply draft seed ≠ [] := by
  have hmem : '\n' ∈ formatAdaptiveReply draft seed := by
    simp only [formatAdaptiveReply, List.mem_append]
    exact Or.inl (Or.inl (Or.inl (Or.inr (by decide))))
  exact List.ne_nil_of_mem hmem

/-- The action step of the deterministic fallback trims to a nonempty
text. -/
theorem fallback_actionStep_trim_ne (profile : SessionProfile)
    (lens : CoachingLens) (text : Str) :
    jsTrim (deterministicFallbackReply profile lens text).actionStep ≠ [] := by
  have hfield : (deterministicFallbackReply profile lens text).actionStep =
      fallbackActionByLens lens
        (match profile.keywords with
         | [] => pickTopic text profile
         | k :: _ => k) := rfl
  rw [hfield]
  exact fallback_action_trim_ne _ _

/-- The follow-up question of the deterministic fallback trims to a
nonempty text. -/
theorem fallback_question_trim_ne (profile : SessionProfile)
    (lens : CoachingLens) (text : Str) :
    jsTrim (deterministicFallbackReply profile lens text).followUpQuestion ≠
      [] := by
  have hfield :
      (deterministicFallbackReply profile lens text).followUpQuestion =
      normalizeQuestion
        (str "What is the first concrete move on " ++
         (match profile.keywords with
          | [] => pickTopic text profile
          | k :: _ => k) ++
         str " you can complete in the next 24 hours?") profile
        (match profile.keywords with
         | [] => pickTopic text profile
         | k :: _ => k) := rfl
  rw [hfield]
  exact jsTrim_ne_nil '?' (qmark_mem_normalizeQuestion _ _ _) (by decide)

/-- C1 counterexample: a low-information input with no pending clarifier
takes the clarifier short-circuit even without a model client, so the
result is not a coach reply and the fallback flag stays false, refuting
the claim for every input and session state. -/
theorem C1_counterexample :
    (generateCoachReplyV2 none lowInfoParams).responseKind =
      ResponseKind.clarify ∧
    (generateCoachReplyV2 none lowInfoParams).lowQualityFallback = false := by
  exact ⟨by decide, by decide⟩

/-- C1 (amended): for every turn that does not take the clarifier
short-circuit, the pipeline without a model client returns a coach reply
rendered from the deterministic fallback draft, whose three fields are
nonempty after trimming, with a nonempty reply, the fallback flag set, and
no outbound model call. -/
theorem C1_fallback_guarantee (params : GenerateParams)
    (h : ¬(isLowInformationInput params.text = true ∧
        params.sessionState.pendingClarifier = false)) :
    (generateCoachReplyV2 none params).responseKind = ResponseKind.coach ∧
    (generateCoachReplyV2 none params).lowQualityFallback = true ∧
    (generateCoachReplyV2 none params).callLog = [] ∧
    (generateCoachReplyV2 none params).summaryCalled = false ∧
    (generateCoachReplyV2 none params).reply =
      formatAdaptiveReply
        (deterministicFallbackReply (turnProfile params)
          (turnInitialLens params) (turnMergedInput params))
        (turnReplySeed params) ∧
    jsTrim (deterministicFallbackReply (turnProfile params)
      (turnInitialLens params) (turnMergedInput params)).reflection ≠ [] ∧
    jsTrim (deterministicFallbackReply (turnProfile params)
      (turnInitialLens params) (turnMergedInput params)).actionStep ≠ [] ∧
    jsTrim (deterministicFallbackReply (turnProfile params)
      (turnInitialLens params) (turnMergedInput params)).followUpQuestion ≠ [] ∧
    (generateCoachReplyV2 none params).reply ≠ [] := by
  have hcond : (isLowInformationInput params.text &&
      !params.sessionState.pendingClarifier) = false := by
    cases hl : isLowInformationInput params.text <;>
      cases hp : params.sessionState.pendingClarifier <;> simp_all
  have hres : generateCoachReplyV2 none params = coachResult none params := by
    unfold generateCoachReplyV2
    rw [hcond]
    simp only [Bool.false_eq_true, if_false]
  rw [hres]
  exact ⟨rfl, rfl, rfl, rfl, rfl, fallback_reflection_trim_ne _ _ _,
    fallback_actionStep_trim_ne _ _ _, fallback_question_trim_ne _ _ _,
    formatAdaptiveReply_ne_nil _ _⟩

/-- C1 witness: the fallback guarantee at the concrete actionable
request. -/
theorem C1_witness :
    (generateCoachReplyV2 none actionableParams).responseKind =
      ResponseKind.coach ∧
    (generateCoachReplyV2 none actionableParams).lowQualityFallback = true ∧
    (generateCoachReplyV2 none actionableParams).callLog = [] ∧
    (generateCoachReplyV2 none actionableParams).reply ≠ [] := by
  have h := C1_fallback_guarantee actionableParams (by decide)
  exact ⟨h.1, h.2.1, h.2.2.1, h.2.2.2.2.2.2.2.2⟩

/-! Claim C2: the retry discipline. -/

set_option maxHeartbeats 1000000 in
/-- Field projections of the coaching result that do not depend on the
summarisation branch. -/
theorem coachResult_fields (client : Option ModelOracle)
    (params : GenerateParams) :
    (coachResult client params).retryCount =
      (turnAttempts client params).retryCount ∧
    (coachResult client params).callLog = (turnAttempts client params).callLog ∧
    (coachResult client params).modelUsed = turnSelectedModel params ∧
    (coachResult client params).lens = turnInitialLens params ∧
    (coachResult client params).responseKind = ResponseKind.coach ∧
    (coachResult client params).lowQualityFallback =
      (turnFinalDraft client params).2 ∧
    (coachResult client params).reply =
      formatAdaptiveReply (turnFinalDraft client params).1
        (turnReplySeed params) := by
  unfold coachResult
  rcases hs : turnSummaryStep client params with _ | su
  · exact ⟨rfl, rfl, rfl, rfl, rfl, rfl, rfl⟩
  · exact ⟨rfl, rfl, rfl, rfl, rfl, rfl, rfl⟩

/-- The complete case analysis of a turn's draft attempts: either no
first candidate was produced, or the first candidate passed the gate, or
it was rejected and exactly one forced-variation retry carrying the
rejected candidate was issued, whose failure modes all end without an
accepted draft. -/
theorem turnAttempts_cases (oracle : ModelOracle) (params : GenerateParams) :
    (turnFirstCandidate oracle params = none ∧
     (turnAttempts (some oracle) params).finalDraft = none ∧
     (turnAttempts (some oracle) params).retryCount = 0 ∧
     (turnAttempts (some oracle) params).callLog = [turnDraftCall params]) ∨
    (∃ cand, turnFirstCandidate oracle params = some cand ∧
     isLowQualityReply cand (turnProfile params).assistantMessages = false ∧
     (turnAttempts (some oracle) params).retryCount = 0 ∧
     (turnAttempts (some oracle) params).callLog = [turnDraftCall params]) ∨
    (∃ cand, turnFirstCandidate oracle params = some cand ∧
     isLowQualityReply cand (turnProfile params).assistantMessages = true ∧
     (turnAttempts (some oracle) params).retryCount = 1 ∧
     (turnAttempts (some oracle) params).callLog =
       [turnDraftCall params,
        { turnDraftCall params with
          forceVariation := true, previousCandidate := some cand }] ∧
     ((oracle.retryOutcome = none ∨
       (∃ out2, oracle.retryOutcome = some out2 ∧
         (generateDraftWithModel
           { turnDraftParams params with
             forceVariation := true, previousCandidate := some cand }
           out2).draft = none) ∨
       (∃ cand2, turnRetryCandidate oracle params = some cand2 ∧
         isLowQualityReply cand2
           (turnProfile params).assistantMessages = true)) →
      (turnAttempts (some oracle) params).finalDraft = none)) := by
  have hta : turnAttempts (some oracle) params =
      runDraftAttempts oracle (turnProfile params) (turnTopic params)
        (turnMergedInput params) (turnInitialLens params)
        (turnSelectedModel params) (turnAvoidPhrases params)
        params.sessionState.rollingSummary params.sessionState.userFacts
        params.sessionState.openLoops params.latestSnapshot := rfl
  rw [hta]
  simp only [runDraftAttempts]
  rcases ho : oracle.firstOutcome with _ | out1
  · exact Or.inl ⟨by simp [turnFirstCandidate, ho], rfl, rfl, rfl⟩
  · dsimp only
    rcases hd : (generateDraftWithModel
        (attemptParams1 (turnSelectedModel params) (turnProfile params)
          (turnInitialLens params) params.latestSnapshot
          params.sessionState.rollingSummary params.sessionState.userFacts
          params.sessionState.openLoops (turnMergedInput params)
          (turnAvoidPhrases params)) out1).draft with _ | d0
    · exact Or.inl ⟨by simp [turnFirstCandidate, ho, turnDraftParams, hd],
        rfl, rfl, rfl⟩
    · dsimp only
      have hfc : turnFirstCandidate oracle params =
          some (formatAdaptiveReply
            (normalizeDraftQuestion (turnProfile params)
              (attemptKeyword (turnProfile params) (turnTopic params)) d0)
            (attemptSeedV1 (turnMergedInput params) (turnInitialLens params)
              (turnSelectedModel params))) := by
        simp [turnFirstCandidate, ho, turnDraftParams, hd, turnKeyword]
      cases hgate : isLowQualityReply
          (formatAdaptiveReply
            (normalizeDraftQuestion (turnProfile params)
              (attemptKeyword (turnProfile params) (turnTopic params)) d0)
            (attemptSeedV1 (turnMergedInput params) (turnInitialLens params)
              (turnSelectedModel params)))
          (turnProfile params).assistantMessages with
      | false =>
        rw [if_pos (show (!false) = true from rfl)]
        exact Or.inr (Or.inl ⟨_, hfc, hgate, rfl, rfl⟩)
      | true =>
        rw [if_neg (show ¬((!true) = true) from by simp)]
        refine Or.inr (Or.inr ⟨_, hfc, hgate, ?_⟩)
        rcases hr : oracle.retryOutcome with _ | out2
        · exact ⟨rfl, rfl, fun _ => rfl⟩
        · dsimp only
          rcases hd2 : (generateDraftWithModel
              { attemptParams1 (turnSelectedModel params) (turnProfile params)
                  (turnInitialLens params) params.latestSnapshot
                  params.sessionState.rollingSummary
                  params.sessionState.userFacts
                  params.sessionState.openLoops (turnMergedInput params)
                  (turnAvoidPhrases params) with
                forceVariation := true
                previousCandidate := some (formatAdaptiveReply
                  (normalizeDraftQuestion (turnProfile params)
                    (attemptKeyword (turnProfile params) (turnTopic params)) d0)
                  (attemptSeedV1 (turnMergedInput params)
                    (turnInitialLens params) (turnSelectedModel params))) }
              out2).draft with _ | r0
          · exact ⟨rfl, rfl, fun _ => rfl⟩
          · dsimp only
            have hrc : turnRetryCandidate oracle params =
                some (formatAdaptiveReply
                  (normalizeDraftQuestion (turnProfile params)
                    (attemptKeyword (turnProfile params) (turnTopic params)) r0)
                  (attemptSeedRetry (turnMergedInput params)
                    (turnInitialLens params) (turnSelectedModel params))) := by
              simp [turnRetryCandidate, hfc, hr, turnDraftParams, hd2,
                turnKeyword]
            cases hgate2 : isLowQualityReply
                (formatAdaptiveReply
                  (normalizeDraftQuestion (turnProfile params)
                    (attemptKeyword (turnProfile params) (turnTopic params)) r0)
                  (attemptSeedRetry (turnMergedInput params)
                    (turnInitialLens params) (turnSelectedModel params)))
                (turnProfile params).assistantMessages with
            | false =>
              rw [if_pos (show (!false) = true from rfl)]
              refine ⟨rfl, rfl, ?_⟩
              rintro (hnone | ⟨out2x, hout2x, hdx⟩ | ⟨cand2, hcand2, hlq2⟩)
              · exact Option.noConfusion hnone
              · obtain rfl : out2 = out2x := Option.some.inj hout2x
                simp only [turnDraftParams] at hdx
                rw [hdx] at hd2
                exact Option.noConfusion hd2
              · rw [hrc] at hcand2
                obtain rfl := Option.some.inj hcand2
                rw [hgate2] at hlq2
                exact Bool.noConfusion hlq2
            | true =>
              rw [if_neg (show ¬((!true) = true) from by simp)]
              exact ⟨rfl, rfl, fun _ => rfl⟩

/-- C2: once a turn reaches draft generation, the retry count never
exceeds one, at most two draft calls are issued, a rejected first
candidate triggers exactly one forced-variation retry carrying the
rejected candidate back, a second call happens only after such a
rejection, and when no attempt yields an accepted draft the reply is the
rendered deterministic fallback. -/
theorem C2_retry_discipline (oracle : ModelOracle) (params : GenerateParams)
    (h : ¬(isLowInformationInput params.text = true ∧
        params.sessionState.pendingClarifier = false)) :
    (generateCoachReplyV2 (some oracle) params).retryCount ≤ 1 ∧
    (generateCoachReplyV2 (some oracle) params).callLog.length ≤ 2 ∧
    (∀ cand, turnFirstCandidate oracle params = some cand →
      isLowQualityReply cand (turnProfile params).assistantMessages = true →
      (generateCoachReplyV2 (some oracle) params).retryCount = 1 ∧
      (generateCoachReplyV2 (some oracle) params).callLog =
        [turnDraftCall params,
         { turnDraftCall params with
           forceVariation := true, previousCandidate := some cand }]) ∧
    ((generateCoachReplyV2 (some oracle) params).callLog.length = 2 →
      ∃ cand, turnFirstCandidate oracle params = some cand ∧
        isLowQualityReply cand (turnProfile params).assistantMessages = true) ∧
    ((turnAttempts (some oracle) params).finalDraft = none →
      (generateCoachReplyV2 (some oracle) params).lowQualityFallback = true ∧
      (generateCoachReplyV2 (some oracle) params).reply =
        formatAdaptiveReply
          (deterministicFallbackReply (turnProfile params)
            (turnInitialLens params) (turnMergedInput params))
          (turnReplySeed params)) ∧
    (∀ cand, turnFirstCandidate oracle params = some cand →
      isLowQualityReply cand (turnProfile params).assistantMessages = true →
      (oracle.retryOutcome = none ∨
       (∃ out2, oracle.retryOutcome = some out2 ∧
         (generateDraftWithModel
           { turnDraftParams params with
             forceVariation := true, previousCandidate := some cand }
           out2).draft = none) ∨
       (∃ cand2, turnRetryCandidate oracle params = some cand2 ∧
         isLowQualityReply cand2
           (turnProfile params).assistantMessages = true)) →
      (turnAttempts (some oracle) params).finalDraft = none) := by
  have hcond : (isLowInformationInput params.text &&
      !params.sessionState.pendingClarifier) = false := by
    cases hl : isLowInformationInput params.text <;>
      cases hp : params.sessionState.pendingClarifier <;> simp_all
  have hres : generateCoachReplyV2 (some oracle) params =
      coachResult (some oracle) params := by
    unfold generateCoachReplyV2
    rw [hcond]
    simp only [Bool.false_eq_true, if_false]
  obtain ⟨hrc, hcl, _, _, _, hlq, hrep⟩ := coachResult_fields (some oracle) params
  have hfall : (turnAttempts (some oracle) params).finalDraft = none →
      (generateCoachReplyV2 (some oracle) params).lowQualityFallback = true ∧
      (generateCoachReplyV2 (some oracle) params).reply =
        formatAdaptiveReply
          (deterministicFallbackReply (turnProfile params)
            (turnInitialLens params) (turnMergedInput params))
          (turnReplySeed params) := by
    intro hnone
    have htf : turnFinalDraft (some oracle) params =
        (deterministicFallbackReply (turnProfile params)
          (turnInitialLens params) (turnMergedInput params), true) := by
      simp [turnFinalDraft, hnone]
    rw [hres, hlq, hrep, htf]
    exact ⟨rfl, rfl⟩
  rcases turnAttempts_cases oracle params with
      ⟨hfc, hfd, hrc0, hclog⟩ | ⟨cand, hfc, hg, hrc0, hclog⟩ |
      ⟨cand, hfc, hg, hrc1, hclog, hfail⟩
  · refine ⟨?_, ?_, ?_, ?_, hfall, ?_⟩
    · rw [hres, hrc, hrc0]; omega
    · rw [hres, hcl, hclog]; simp
    · intro c hc
      rw [hfc] at hc
      exact Option.noConfusion hc
    · intro h2
      rw [hres, hcl, hclog] at h2
      simp at h2
    · intro c hc
      rw [hfc] at hc
      exact Option.noConfusion hc
  · refine ⟨?_, ?_, ?_, ?_, hfall, ?_⟩
    · rw [hres, hrc, hrc0]; omega
    · rw [hres, hcl, hclog]; simp
    · intro c hc hlow
      rw [hfc] at hc
      obtain rfl := Option.some.inj hc
      rw [hg] at hlow
      exact Bool.noConfusion hlow
    · intro h2
      rw [hres, hcl, hclog] at h2
      simp at h2
    · intro c hc hlow
      rw [hfc] at hc
      obtain rfl := Option.some.inj hc
      rw [hg] at hlow
      exact Bool.noConfusion hlow
  · refine ⟨?_, ?_, ?_, ?_, hfall, ?_⟩
    · rw [hres, hrc, hrc1]
    · rw [hres, hcl, hclog]; simp
    · intro c hc hlow
      rw [hfc] at hc
      obtain rfl := Option.some.inj hc
      rw [hres, hrc, hcl, hrc1, hclog]
      exact ⟨rfl, rfl⟩
    · intro _
      exact ⟨cand, hfc, hg⟩
    · intro c hc hlow hbad
      rw [hfc] at hc
      obtain rfl := Option.some.inj hc
      exact hfail hbad

/-- C2 witness: the retry discipline applied at a pending-clarifier turn
whose first draft parses into a generic reply and whose retry throws. -/
theorem C2_witness :
    (generateCoachReplyV2 (some c2oracle) c2params).retryCount ≤ 1 ∧
    (generateCoachReplyV2 (some c2oracle) c2params).callLog.length ≤ 2 := by
  have h := C2_retry_discipline c2oracle c2params (by decide)
  exact ⟨h.1, h.2.1⟩

/-! Claim C8: the merged clarifier topic. -/

/-- C8 counterexample: with a pending clarifier whose topic is the word
purpose, the profile is built from the raw text alone, so the router sees
no purpose intent and picks the fast tier, while a profile built from the
merged input reaches the primary threshold — refuting the claim that the
profile operates on the merged input. -/
theorem C8_counterexample :
    c8params.sessionState.pendingClarifier = true ∧
    (generateCoachReplyV2 none c8params).modelUsed = envOpenAiChatModelFast ∧
    4 ≤ complexityScore
      (buildSessionProfile c8params.history (turnMergedInput c8params))
      (turnMergedInput c8params) ∧
    envOpenAiChatModelFast ≠ envOpenAiChatModelPrimary := by
  refine ⟨rfl, ?_, ?_, by decide⟩
  · decide
  · decide

/-- C8 (amended): with a pending clarifier the stored topic is prepended
to the input before generation resumes — every outbound draft call and
the model router operate on the merged input — but the session profile is
built from the raw text and history alone. -/
theorem C8_merged_input (client : Option ModelOracle)
    (params : GenerateParams)
    (h : params.sessionState.pendingClarifier = true) :
    turnMergedInput params =
      jsTrim (params.sessionState.clarifierTopic ++ str ". " ++ params.text) ∧
    (∀ call ∈ (generateCoachReplyV2 client params).callLog,
      call.inputText = turnMergedInput params) ∧
    (generateCoachReplyV2 client params).modelUsed =
      (if 4 ≤ complexityScore (buildSessionProfile params.history params.text)
          (turnMergedInput params)
       then envOpenAiChatModelPrimary else envOpenAiChatModelFast) ∧
    (generateCoachReplyV2 client params).lens =
      chooseLens (buildSessionProfile params.history params.text)
        params.sessionState.lastLens (turnLensSeed params) := by
  have hcond : (isLowInformationInput params.text &&
      !params.sessionState.pendingClarifier) = false := by
    rw [h]; simp
  have hres : generateCoachReplyV2 client params = coachResult client params := by
    unfold generateCoachReplyV2
    rw [hcond]
    simp only [Bool.false_eq_true, if_false]
  obtain ⟨_, hcl, hmu, hln, _, _, _⟩ := coachResult_fields client params
  refine ⟨by rw [turnMergedInput, if_pos h], ?_, ?_, ?_⟩
  · intro call hcall
    rw [hres, hcl] at hcall
    cases client with
    | none =>
      simp only [turnAttempts] at hcall
      simp at hcall
    | some oracle =>
      rcases turnAttempts_cases oracle params with
          ⟨_, _, _, hclog⟩ | ⟨_, _, _, _, hclog⟩ | ⟨_, _, _, _, hclog, _⟩ <;>
        rw [hclog] at hcall <;>
        simp only [List.mem_cons, List.not_mem_nil, or_false] at hcall
      · rcases hcall with rfl
        rfl
      · rcases hcall with rfl
        rfl
      · rcases hcall with rfl | rfl <;> rfl
  · rw [hres, hmu]
    rfl
  · rw [hres, hln]
    rfl

/-- C8 witness: the amended statement at the concrete pending-clarifier
turn with the purpose topic. -/
theorem C8_witness :
    turnMergedInput c8params =
      jsTrim (c8params.sessionState.clarifierTopic ++ str ". " ++
        c8params.text) ∧
    (generateCoachReplyV2 none c8params).modelUsed =
      (if 4 ≤ complexityScore
          (buildSessionProfile c8params.history c8params.text)
          (turnMergedInput c8params)
       then envOpenAiChatModelPrimary else envOpenAiChatModelFast) := by
  have h := C8_merged_input none c8params (by decide)
  exact ⟨h.1, h.2.2.1⟩

end Soulaware